import Mathlib

/-! tibiarc `infodump`: resource loading and the command-line driver.

A shallow embedding of `src/infodump/infodump.c` (`load_files`,
`player_OpenData`, `player_CloseData`, `main`) together with
`struct memory_file` of `src/utils/memoryfile.h`.

Conventions of the embedding.

* C strings are lists of characters without the terminating NUL.
* Pointers are natural numbers (addresses).
* The program state that the C code reaches through globals and through the
  operating system is one explicit record, `World`, which is threaded through
  every function.  Each call of an external function appends an `Event` to
  `World.trace`, oldest call first.
* Results of external functions that the code branches on (`memoryfile_Open`,
  `rendering_Init`, `playback_Init`) come from an environment `Env` of oracles.
  An oracle sees the complete `World` at the time of the call, so its answer
  may depend on everything that has happened before.
-/

namespace Tibiarc

/-! ## Data model -/

/-- The C type `struct memory_file` of `memoryfile.h`, in the layout used when
`_WIN32` is not defined.  (With `_WIN32` the native handle is a pair of
`HANDLE`s instead of one descriptor; nothing below looks inside it.) -/
structure memory_file where
  Fd : Nat
  Size : Nat
  View : Nat
deriving DecidableEq, Repr, Inhabited

/-- The C type `struct trc_data_reader`, as far as `infodump.c` uses it: the
three fields `Position`, `Data`, `Length` that the code assigns.  The declaring
header is not among these sources; lengths are kept as mathematical integers
because `load_files` stores `int` arguments in `Length`. -/
structure trc_data_reader where
  Position : Int
  Data : Nat
  Length : Int
deriving DecidableEq, Repr, Inhabited

/-- The C type `struct player_data` (infodump.c, lines 71-79). -/
structure player_data where
  PictureFile : memory_file
  SpriteFile : memory_file
  TypeFile : memory_file
  Pictures : trc_data_reader
  Sprites : trc_data_reader
  Types : trc_data_reader
deriving DecidableEq, Repr, Inhabited

/-- One call of an external function, with the arguments that matter and,
where the caller branches on it, the result. -/
inductive Event where
  | memoryfile_Open (path : List Char) (result : Option memory_file)
  | memoryfile_Close (file : memory_file)
  | playback_Free (session : Option Nat)
  | playback_Init (session : Nat) (name : List Char) (recording : trc_data_reader)
      (major minor preview : Int) (pic spr dat : trc_data_reader) (result : Bool)
  | free (ptr : Nat)
  | trc_ChangeErrorReporting
  | rendering_Init (width height : Nat) (result : Bool)
deriving DecidableEq, Repr

/-- Everything the code can reach besides its arguments.

* `nextFd`: the descriptor the next successful `memoryfile_Open` receives.
* `mappings`: the mappings that are open now, most recent first.
* `nextSession`: the identity the next `playback_Init` gives to what it builds.
* `playback`: the global `playback` object: the session it holds, if any.
* `sessions`: the playback sessions that are live now (built by
  `playback_Init` and not yet handed to `playback_Free`).
* `playback_loaded`: the global flag of that name.
* `stderr`: lines written with `fprintf(stderr, ...)`, oldest first.
* `trace`: calls of external functions, oldest first. -/
structure World where
  nextFd : Nat
  mappings : List memory_file
  nextSession : Nat
  playback : Option Nat
  sessions : List Nat
  playback_loaded : Bool
  stderr : List String
  trace : List Event

/-- The state at program start: nothing open, no session, flag clear. -/
def World.initial : World :=
  { nextFd := 3, mappings := [], nextSession := 0, playback := none, sessions := [],
    playback_loaded := false, stderr := [], trace := [] }

/-- The platform and the external functions.

* `win32`: whether `_WIN32` is defined (selects `DIR_SEP`).
* `FILENAME_MAX`: the `<stdio.h>` constant.
* `mapFile`: what opening, sizing and mapping a path yields in a given state:
  `none` for failure, otherwise the file length and the address of the view.
* `rendering_Init`, `playback_Init`: the boolean results of these calls. -/
structure Env where
  win32 : Bool
  FILENAME_MAX : Nat
  mapFile : World → List Char → Option (Nat × Nat)
  rendering_Init : World → Nat → Nat → Bool
  playback_Init : World → List Char → trc_data_reader → Int → Int → Int →
    trc_data_reader → trc_data_reader → trc_data_reader → Bool

/-- The largest `int` (32 bits). -/
def INT_MAX : Int := 2147483647

/-- The macro `DIR_SEP` (infodump.c, lines 24-28). -/
def DIR_SEP (env : Env) : List Char :=
  if env.win32 then [Char.ofNat 92] else ['/']

/-- The string literal `"Tibia.pic"`. -/
def Tibia_pic : List Char := "Tibia.pic".toList

/-- The string literal `"Tibia.spr"`. -/
def Tibia_spr : List Char := "Tibia.spr".toList

/-- The string literal `"Tibia.dat"`. -/
def Tibia_dat : List Char := "Tibia.dat".toList

/-! ## External functions -/

/-- The C library call `snprintf(buf, n, "%s%s", a, b)`: the return value and
the string left in `buf`.  The return value is the length the complete output
would have, whether or not it fits in `n` bytes, or a negative value when that
length cannot be returned as an `int`; at most `n - 1` characters are stored,
followed by the terminator. -/
def snprintf (n : Nat) (a b : List Char) : Int × List Char :=
  if INT_MAX < ((a ++ b).length : Int) then (-1, (a ++ b).take (n - 1))
  else (((a ++ b).length : Int), (a ++ b).take (n - 1))

/-- The call `fprintf(stderr, msg)`. -/
def World.fprintf (w : World) (msg : String) : World :=
  { w with stderr := w.stderr ++ [msg] }

/-- Modelled from the spec: `memoryfile_Open`, whose body (memoryfile.c) is not
among these sources.  On success the whole file is mapped, `Size` is the file
length and `View` the address of its first byte, and the mapping is open until
closed; on failure nothing is left allocated and `*file` is not changed.
Returns the result, the new `*file` and the new state. -/
def memoryfile_Open (env : Env) (path : List Char) (file : memory_file) (w : World) :
    Bool × memory_file × World :=
  match env.mapFile w path with
  | none => (false, file, { w with trace := w.trace ++ [Event.memoryfile_Open path none] })
  | some (size, view) =>
    let f : memory_file := { Fd := w.nextFd, Size := size, View := view }
    (true, f, { w with nextFd := w.nextFd + 1, mappings := f :: w.mappings,
                       trace := w.trace ++ [Event.memoryfile_Open path (some f)] })

/-- Modelled from the spec: `memoryfile_Close`, whose body (memoryfile.c) is not
among these sources.  Closing releases the mapping; closing a mapping that is
not open does nothing. -/
def memoryfile_Close (file : memory_file) (w : World) : World :=
  { w with mappings := w.mappings.erase file,
           trace := w.trace ++ [Event.memoryfile_Close file] }

/-! ## `player_OpenData` and `player_CloseData` -/

/-- The function `player_OpenData` (infodump.c, lines 81-147).  Returns the
result, the new `*data` and the new state.  Each `return false` after a failed
`memoryfile_Open` leaves the function at once; the two `memoryfile_Close` calls
at lines 140 and 143 follow a branch that has already returned and are never
reached. -/
def player_OpenData (env : Env) (dataFolder : List Char) (data : player_data) (w : World) :
    Bool × player_data × World :=
  let picture := snprintf env.FILENAME_MAX dataFolder (DIR_SEP env ++ Tibia_pic)
  if picture.1 < 0 then
    (false, data, w.fprintf "Could not merge data path with Tibia.pic\n")
  else
  let sprite := snprintf env.FILENAME_MAX dataFolder (DIR_SEP env ++ Tibia_spr)
  if sprite.1 < 0 then
    (false, data, w.fprintf "Could not merge data path with Tibia.spr\n")
  else
  let type := snprintf env.FILENAME_MAX dataFolder (DIR_SEP env ++ Tibia_dat)
  if type.1 < 0 then
    (false, data, w.fprintf "Could not merge data path with Tibia.dat\n")
  else
  match memoryfile_Open env picture.2 data.PictureFile w with
  | (false, f1, w1) =>
    (false, { data with PictureFile := f1 }, w1.fprintf "Failed to open Tibia.pic\n")
  | (true, f1, w1) =>
    match memoryfile_Open env sprite.2 data.SpriteFile w1 with
    | (false, f2, w2) =>
      (false, { data with PictureFile := f1, SpriteFile := f2 },
        w2.fprintf "Failed to open Tibia.spr\n")
    | (true, f2, w2) =>
      match memoryfile_Open env type.2 data.TypeFile w2 with
      | (false, f3, w3) =>
        (false, { data with PictureFile := f1, SpriteFile := f2, TypeFile := f3 },
          w3.fprintf "Failed to open Tibia.dat\n")
      | (true, f3, w3) =>
        (true,
          { PictureFile := f1, SpriteFile := f2, TypeFile := f3,
            Pictures := { Data := f1.View, Length := (f1.Size : Int), Position := 0 },
            Sprites := { Data := f2.View, Length := (f2.Size : Int), Position := 0 },
            Types := { Data := f3.View, Length := (f3.Size : Int), Position := 0 } },
          w3)

/-- The function `player_CloseData` (infodump.c, lines 149-153). -/
def player_CloseData (data : player_data) (w : World) : World :=
  memoryfile_Close data.TypeFile
    (memoryfile_Close data.SpriteFile (memoryfile_Close data.PictureFile w))

/-! ## The playback session and `load_files` -/

/-- Modelled from the spec: `playback_Free(&playback)`, whose body (playback.c)
is not among these sources.  It tears down the session held by the global
`playback` object, which afterwards holds none. -/
def playback_Free (w : World) : World :=
  { w with sessions := (match w.playback with
                        | some s => w.sessions.erase s
                        | none => w.sessions),
           playback := none,
           trace := w.trace ++ [Event.playback_Free w.playback] }

/-- Modelled from the spec: `playback_Init(&playback, ...)`, whose body
(playback.c) is not among these sources.  It constructs a new session in the
global `playback` object, overwriting what the object held without tearing it
down.  What it constructs stays live until the object is handed to
`playback_Free`.  Returns the reported result and the new state. -/
def playback_Init (env : Env) (name : List Char) (recording : trc_data_reader)
    (major minor preview : Int) (pic spr dat : trc_data_reader) (w : World) : Bool × World :=
  let ok := env.playback_Init w name recording major minor preview pic spr dat
  (ok, { w with nextSession := w.nextSession + 1,
                playback := some w.nextSession,
                sessions := w.nextSession :: w.sessions,
                trace := w.trace ++ [Event.playback_Init w.nextSession name recording
                                       major minor preview pic spr dat ok] })

/-- The C library call `free(ptr)`, recorded in the trace. -/
def free (ptr : Nat) (w : World) : World :=
  { w with trace := w.trace ++ [Event.free ptr] }

/-- The function `load_files` (infodump.c, lines 30-69). -/
def load_files (env : Env) (recording_data : Nat) (recording_length : Int)
    (pic_data : Nat) (pic_length : Int) (spr_data : Nat) (spr_length : Int)
    (dat_data : Nat) (dat_length : Int) (w : World) : World :=
  let w0 := if w.playback_loaded then playback_Free w else w
  let recording : trc_data_reader :=
    { Position := 0, Data := recording_data, Length := recording_length }
  let pic : trc_data_reader := { Position := 0, Data := pic_data, Length := pic_length }
  let spr : trc_data_reader := { Position := 0, Data := spr_data, Length := spr_length }
  let dat : trc_data_reader := { Position := 0, Data := dat_data, Length := dat_length }
  let w1 := (playback_Init env [] recording 0 0 0 pic spr dat w0).2
  let w2 := free pic_data w1
  let w3 := free spr_data w2
  let w4 := free dat_data w3
  { w4 with playback_loaded := true }

/-! ## The version scan -/

/-- The C library predicate `isspace` in the "C" locale. -/
def isspace (c : Char) : Bool :=
  c.toNat = 32 || (9 ≤ c.toNat && c.toNat ≤ 13)

/-- The C library predicate `isdigit`. -/
def isdigit (c : Char) : Bool :=
  48 ≤ c.toNat && c.toNat ≤ 57

/-- Skips leading white space, as every `%u` directive does first. -/
def skipSpace : List Char → List Char
  | [] => []
  | c :: cs => if isspace c then skipSpace cs else c :: cs

/-- Reads the longest run of decimal digits, continuing the value `acc`;
returns the value and the unread input. -/
def scanDigits : Nat → List Char → Nat × List Char
  | acc, [] => (acc, [])
  | acc, c :: cs =>
    if isdigit c then scanDigits (acc * 10 + (c.toNat - 48)) cs else (acc, c :: cs)

/-- The result of one `%u` directive. -/
inductive Conversion where
  | stored (value : Int) (rest : List Char)
  | matchingFailure
  | inputFailure
deriving DecidableEq, Repr

/-- The value an `unsigned` holding `n` (negated when `neg`) has when it is
read back through the `int` it was stored in: reduce modulo `2^32`, then
reinterpret in two's complement.  (For numbers of `2^32` and more the C
standard does not fix what `%u` stores, and libraries differ: glibc stores -1
for a number of `2^64` or more.  The theorems below only use numbers below
`2^31`, where the value read back is the number itself.) -/
def storeUnsignedInInt (neg : Bool) (n : Nat) : Int :=
  let u : Nat := if neg then (4294967296 - n % 4294967296) % 4294967296 else n % 4294967296
  if u < 2147483648 then (u : Int) else (u : Int) - 4294967296

/-- One `%u` directive of `sscanf`: white space is skipped, then an optional
sign and a non-empty run of decimal digits are read (the subject sequence of
`strtoul` with base 10).  End of input before anything is read is an input
failure; anything else that is not a number is a matching failure. -/
def scanUnsigned (s : List Char) : Conversion :=
  match skipSpace s with
  | [] => Conversion.inputFailure
  | c :: cs =>
    let neg : Bool := c = '-'
    let body : List Char := if c = '-' ∨ c = '+' then cs else c :: cs
    match body with
    | [] => Conversion.matchingFailure
    | d :: ds =>
      if isdigit d then
        let r := scanDigits 0 (d :: ds)
        Conversion.stored (storeUnsignedInInt neg r.1) r.2
      else Conversion.matchingFailure

/-- What `sscanf` leaves behind: its return value and the three variables. -/
structure Scan where
  ret : Int
  major : Int
  minor : Int
  preview : Int
deriving DecidableEq, Repr

/-- The C library call `sscanf(s, "%u.%u.%u", &major, &minor, &preview)`,
given the values the three variables hold before the call.  Directives run
left to right and the call stops at the first that fails; the return value is
the number of values stored, or `EOF` (-1) on an input failure before the
first store.  A `.` in the format matches exactly one `.` of the input. -/
def sscanf (s : List Char) (major minor preview : Int) : Scan :=
  match scanUnsigned s with
  | Conversion.inputFailure => ⟨-1, major, minor, preview⟩
  | Conversion.matchingFailure => ⟨0, major, minor, preview⟩
  | Conversion.stored v1 r1 =>
    match r1 with
    | '.' :: r1a =>
      match scanUnsigned r1a with
      | Conversion.stored v2 r2 =>
        match r2 with
        | '.' :: r2a =>
          match scanUnsigned r2a with
          | Conversion.stored v3 _ => ⟨3, v1, v2, v3⟩
          | _ => ⟨2, v1, v2, preview⟩
        | _ => ⟨2, v1, v2, preview⟩
      | _ => ⟨1, v1, minor, preview⟩
    | _ => ⟨1, v1, minor, preview⟩

/-! ## `main` -/

/-- How `main` ends: it returns a status, or it reaches `while (true)` (line
201), which has no exit. -/
inductive Outcome where
  | returned (status : Int)
  | processingLoop
deriving DecidableEq, Repr

/-- The observable result of `main`: how it ended, the three version
variables, and the state at that point. -/
structure MainResult where
  outcome : Outcome
  major : Int
  minor : Int
  preview : Int
  world : World

/-- Modelled from the spec: `trc_ChangeErrorReporting(TRC_ERROR_REPORT_MODE_TEXT)`,
whose body is not among these sources: an external call without a result. -/
def trc_ChangeErrorReporting (w : World) : World :=
  { w with trace := w.trace ++ [Event.trc_ChangeErrorReporting] }

/-- Modelled from the spec: `rendering_Init(&rendering, width, height)`, whose
body (rendering.c) is not among these sources: an external call that reports
success or failure.  Returns the reported result and the new state. -/
def rendering_Init (env : Env) (width height : Nat) (w : World) : Bool × World :=
  let ok := env.rendering_Init w width height
  (ok, { w with trace := w.trace ++ [Event.rendering_Init width height ok] })

/-- The function `main` (infodump.c, lines 155-213), up to the point where it
either returns or enters the processing loop; `argc` is the length of `argv`.
The uninitialised locals `data` and `file_recording` start out all-zero.  The
statements after the loop (lines 207-212) cannot be reached. -/
def main (env : Env) (argv : List (List Char)) (w : World) : MainResult :=
  let argc := argv.length
  if argc < 3 ∨ argc > 4 then
    ⟨Outcome.returned 1, 0, 0, 0,
      w.fprintf ("usage: " ++ String.mk (argv.getD 0 []) ++ " DATA_FOLDER RECORDING [VERSION]\n")⟩
  else
  let scan : Scan := if argc = 4 then sscanf (argv.getD 3 []) 0 0 0 else ⟨0, 0, 0, 0⟩
  if argc = 4 ∧ scan.ret < 2 then
    ⟨Outcome.returned 1, scan.major, scan.minor, scan.preview,
      w.fprintf "version must be in the format \x27X.Y\x27, e.g. \x278.55\x27\n"⟩
  else
  let w1 := trc_ChangeErrorReporting w
  let r := rendering_Init env 800 600 w1
  if r.1 = false then ⟨Outcome.returned 1, scan.major, scan.minor, scan.preview, r.2⟩
  else
  let d := player_OpenData env (argv.getD 1 []) default r.2
  if d.1 = false then ⟨Outcome.returned 1, scan.major, scan.minor, scan.preview, d.2.2⟩
  else
  let data := d.2.1
  let f := memoryfile_Open env (argv.getD 2 []) default d.2.2
  if f.1 = false then ⟨Outcome.returned 1, scan.major, scan.minor, scan.preview, f.2.2⟩
  else
  let file_recording := f.2.1
  let p := playback_Init env (argv.getD 2 [])
    { Data := file_recording.View, Length := (file_recording.Size : Int), Position := 0 }
    scan.major scan.minor scan.preview data.Pictures data.Sprites data.Types f.2.2
  if p.1 = false then ⟨Outcome.returned 1, scan.major, scan.minor, scan.preview, p.2⟩
  else
  ⟨Outcome.processingLoop, scan.major, scan.minor, scan.preview, player_CloseData data p.2⟩

/-! ## Vocabulary for the statements -/

/-- The state right after a successful `memoryfile_Open` of `path` that found a
file of `size` bytes mapped at `view`. -/
def World.opened (w : World) (path : List Char) (size view : Nat) : World :=
  { w with nextFd := w.nextFd + 1, mappings := ⟨w.nextFd, size, view⟩ :: w.mappings,
           trace := w.trace ++ [Event.memoryfile_Open path (some ⟨w.nextFd, size, view⟩)] }

/-- The state right after a failed `memoryfile_Open` of `path`. -/
def World.refused (w : World) (path : List Char) : World :=
  { w with trace := w.trace ++ [Event.memoryfile_Open path none] }

/-- The string that `player_OpenData` leaves in a path buffer and then passes
to `memoryfile_Open`. -/
def dataPath (env : Env) (dataFolder base : List Char) : List Char :=
  (snprintf env.FILENAME_MAX dataFolder (DIR_SEP env ++ base)).2

/-- Path composition succeeds as `player_OpenData` judges it: none of its three
`snprintf` calls returns a negative value.  This is the test of lines 86-111
and nothing more: it also holds when a joined path is too long for its buffer
and has been cut short (compare `pathsFit`). -/
def pathsComposed (env : Env) (dataFolder : List Char) : Prop :=
  0 ≤ (snprintf env.FILENAME_MAX dataFolder (DIR_SEP env ++ Tibia_pic)).1 ∧
  0 ≤ (snprintf env.FILENAME_MAX dataFolder (DIR_SEP env ++ Tibia_spr)).1 ∧
  0 ≤ (snprintf env.FILENAME_MAX dataFolder (DIR_SEP env ++ Tibia_dat)).1

/-- Path composition succeeds as the specification means it: each of the three
joined paths (folder, separator, base name), with its terminator, fits in a
buffer of `FILENAME_MAX` bytes. -/
def pathsFit (env : Env) (dataFolder : List Char) : Prop :=
  (dataFolder ++ DIR_SEP env ++ Tibia_pic).length < env.FILENAME_MAX ∧
  (dataFolder ++ DIR_SEP env ++ Tibia_spr).length < env.FILENAME_MAX ∧
  (dataFolder ++ DIR_SEP env ++ Tibia_dat).length < env.FILENAME_MAX

/-- The external calls made between two states of one run. -/
def callTrace (before after : World) : List Event :=
  after.trace.drop before.trace.length

/-- An environment for examples: a POSIX platform with `FILENAME_MAX = 4096`,
a fixed set of files (path, length, address of the view), and `rendering_Init`
and `playback_Init` that succeed. -/
def Env.ofFiles (files : List (List Char × Nat × Nat)) : Env :=
  { win32 := false
    FILENAME_MAX := 4096
    mapFile := fun _ path => (files.find? (fun e => e.1 = path)).map Prod.snd
    rendering_Init := fun _ _ _ => true
    playback_Init := fun _ _ _ _ _ _ _ _ _ => true }

/-- A data folder `data` with all three tables (100, 200 and 50 bytes) and a
recording `rec.trc`. -/
def envComplete : Env :=
  Env.ofFiles [("data/Tibia.pic".toList, 100, 4096), ("data/Tibia.spr".toList, 200, 8192),
               ("data/Tibia.dat".toList, 50, 12288), ("rec.trc".toList, 7, 16384)]

/-- A data folder `data` in which `Tibia.spr` is missing. -/
def envNoSprite : Env :=
  Env.ofFiles [("data/Tibia.pic".toList, 100, 4096), ("data/Tibia.dat".toList, 50, 12288),
               ("rec.trc".toList, 7, 16384)]

/-- A data folder `data` whose `Tibia.pic` is an empty file. -/
def envEmptyPicture : Env :=
  Env.ofFiles [("data/Tibia.pic".toList, 0, 4096), ("data/Tibia.spr".toList, 200, 8192),
               ("data/Tibia.dat".toList, 50, 12288), ("rec.trc".toList, 7, 16384)]

/-- The trace entry of one `memoryfile_Open` call, from its path and result. -/
def openEvent (c : List Char × Option memory_file) : Event :=
  Event.memoryfile_Open c.1 c.2

/-- An environment for examples in which every path names a one-byte file. -/
def envEveryPath : Env :=
  { win32 := false
    FILENAME_MAX := 4096
    mapFile := fun _ _ => some (1, 4096)
    rendering_Init := fun _ _ _ => true
    playback_Init := fun _ _ _ _ _ _ _ _ _ => true }

/-- The eight arguments of one `load_files` call: four (pointer, length)
regions. -/
structure Regions where
  recording_data : Nat
  recording_length : Int
  pic_data : Nat
  pic_length : Int
  spr_data : Nat
  spr_length : Int
  dat_data : Nat
  dat_length : Int

/-- One `load_files` call on the regions `a`. -/
def load_files_on (env : Env) (a : Regions) (w : World) : World :=
  load_files env a.recording_data a.recording_length a.pic_data a.pic_length
    a.spr_data a.spr_length a.dat_data a.dat_length w

/-- A sequence of `load_files` calls, first call first. -/
def load_files_sequence (env : Env) (calls : List Regions) (w : World) : World :=
  calls.foldl (fun w a => load_files_on env a w) w

/-- The effect of one external call on the set of live playback sessions:
`playback_Init` adds the session it constructs, `playback_Free` removes the one
it is given. -/
def liveStep (live : List Nat) : Event → List Nat
  | Event.playback_Init s _ _ _ _ _ _ _ _ _ => s :: live
  | Event.playback_Free (some s) => live.erase s
  | _ => live

/-- The playback sessions that are live after the calls `t`, starting with
none. -/
def liveAfter (t : List Event) : List Nat :=
  t.foldl liveStep []

/-- The `playback_Init` call that `load_files` makes in state `w0`. -/
def loadInitEvent (env : Env) (a : Regions) (w0 : World) : Event :=
  Event.playback_Init w0.nextSession []
    ⟨0, a.recording_data, a.recording_length⟩ 0 0 0
    ⟨0, a.pic_data, a.pic_length⟩ ⟨0, a.spr_data, a.spr_length⟩ ⟨0, a.dat_data, a.dat_length⟩
    (env.playback_Init w0 [] ⟨0, a.recording_data, a.recording_length⟩ 0 0 0
      ⟨0, a.pic_data, a.pic_length⟩ ⟨0, a.spr_data, a.spr_length⟩ ⟨0, a.dat_data, a.dat_length⟩)

/-- Four separate buffers for examples. -/
def regionsExample : Regions :=
  { recording_data := 4096, recording_length := 7, pic_data := 8192, pic_length := 100,
    spr_data := 12288, spr_length := 200, dat_data := 16384, dat_length := 50 }

/-- What holds of every state reached by `load_files` calls from program start:
the live sessions are those the trace accounts for, the only live session is
the one the global `playback` object holds, the flag `playback_loaded` is set
exactly when the object holds a session, session identities are not reused,
and at no earlier moment were two sessions live. -/
structure Consistent (w : World) : Prop where
  live : liveAfter w.trace = w.sessions
  held : w.sessions = w.playback.toList
  flag : w.playback_loaded = true ↔ w.playback.isSome = true
  fresh : ∀ s ∈ w.sessions, s < w.nextSession
  never : ∀ t, t <+: w.trace → (liveAfter t).length ≤ 1

/-- A decimal number: a non-empty string of decimal digits. -/
def isDecimal (s : List Char) : Bool :=
  !s.isEmpty && s.all isdigit

/-- The number a string of decimal digits denotes. -/
def decimalValue (s : List Char) : Nat :=
  s.foldl (fun n c => n * 10 + (c.toNat - 48)) 0

/-- The pieces of a string between its `.` characters. -/
def splitDots : List Char → List (List Char)
  | [] => [[]]
  | c :: cs =>
    if c = '.' then [] :: splitDots cs
    else
      match splitDots cs with
      | [] => [[c]]
      | p :: ps => (c :: p) :: ps

/-- The version format as the specification words it: `MAJOR.MINOR` or
`MAJOR.MINOR.PREVIEW`, each component a decimal number. -/
def isVersionForm (s : List Char) : Bool :=
  match splitDots s with
  | [major, minor] => isDecimal major && isDecimal minor
  | [major, minor, preview] => isDecimal major && isDecimal minor && isDecimal preview
  | _ => false

/-- An optional sign: nothing, `+` or `-`. -/
def isOptSign (s : List Char) : Prop :=
  s = [] ∨ s = ['+'] ∨ s = ['-']

/-- The string begins with `MAJOR.MINOR` as `%u.%u` reads it: a decimal number,
a `.`, and a second decimal number, where each number may be preceded by white
space and by one sign.  What follows the second number is arbitrary. -/
def beginsWithMajorMinor (s : List Char) : Prop :=
  ∃ ws1 sg1 M ws2 sg2 N rest,
    (∀ c ∈ ws1, isspace c = true) ∧ isOptSign sg1 ∧ isDecimal M = true ∧
    (∀ c ∈ ws2, isspace c = true) ∧ isOptSign sg2 ∧ isDecimal N = true ∧
    s = ws1 ++ sg1 ++ M ++ '.' :: (ws2 ++ sg2 ++ N ++ rest)


/-! ### The calls `main` makes, each in the state the previous one left -/

/-- The version variables of `main` after lines 156-169: `sscanf` runs only
when there is a fourth argument. -/
def mainScan (argv : List (List Char)) : Scan :=
  if argv.length = 4 then sscanf (argv.getD 3 []) 0 0 0 else ⟨0, 0, 0, 0⟩

/-- The version check of `main` (lines 163-169) fails: there is a fourth
argument and `sscanf` stores fewer than two values from it. -/
def versionRejected (argv : List (List Char)) : Prop :=
  argv.length = 4 ∧ (sscanf (argv.getD 3 []) 0 0 0).ret < 2

/-- The `rendering_Init` call of `main` (line 173). -/
def mainRendering (env : Env) (w : World) : Bool × World :=
  rendering_Init env 800 600 (trc_ChangeErrorReporting w)

/-- The `player_OpenData` call of `main` (line 180). -/
def mainData (env : Env) (argv : List (List Char)) (w : World) : Bool × player_data × World :=
  player_OpenData env (argv.getD 1 []) default (mainRendering env w).2

/-- The `memoryfile_Open` call of `main` on the recording (line 181). -/
def mainRecording (env : Env) (argv : List (List Char)) (w : World) :
    Bool × memory_file × World :=
  memoryfile_Open env (argv.getD 2 []) default (mainData env argv w).2.2

/-- The `playback_Init` call of `main` (lines 185-195). -/
def mainPlayback (env : Env) (argv : List (List Char)) (w : World) : Bool × World :=
  playback_Init env (argv.getD 2 [])
    { Data := (mainRecording env argv w).2.1.View,
      Length := ((mainRecording env argv w).2.1.Size : Int), Position := 0 }
    (mainScan argv).major (mainScan argv).minor (mainScan argv).preview
    (mainData env argv w).2.1.Pictures (mainData env argv w).2.1.Sprites
    (mainData env argv w).2.1.Types (mainRecording env argv w).2.2

/-- A data folder `data` with all three tables, but no recording. -/
def envNoRecording : Env :=
  Env.ofFiles [("data/Tibia.pic".toList, 100, 4096), ("data/Tibia.spr".toList, 200, 8192),
               ("data/Tibia.dat".toList, 50, 12288)]

/-! # Theorems -/

/-! ## `memoryfile_Open` and `snprintf` -/

theorem memoryfile_Open_some (env : Env) (path : List Char) (file : memory_file) (w : World)
    (size view : Nat) (h : env.mapFile w path = some (size, view)) :
    memoryfile_Open env path file w = (true, ⟨w.nextFd, size, view⟩, w.opened path size view) := by
  simp [memoryfile_Open, h, World.opened]

theorem memoryfile_Open_none (env : Env) (path : List Char) (file : memory_file) (w : World)
    (h : env.mapFile w path = none) :
    memoryfile_Open env path file w = (false, file, w.refused path) := by
  simp [memoryfile_Open, h, World.refused]

theorem memoryfile_Open_true_iff (env : Env) (path : List Char) (file : memory_file) (w : World) :
    (memoryfile_Open env path file w).1 = true ↔
      ∃ size view, env.mapFile w path = some (size, view) := by
  cases h : env.mapFile w path with
  | none => simp [memoryfile_Open_none env path file w h]
  | some sv =>
    obtain ⟨size, view⟩ := sv
    simp [memoryfile_Open_some env path file w size view h]

theorem snprintf_snd (n : Nat) (a b : List Char) : (snprintf n a b).2 = (a ++ b).take (n - 1) := by
  unfold snprintf; split <;> rfl

theorem snprintf_fst (n : Nat) (a b : List Char) (h : ((a ++ b).length : Int) ≤ INT_MAX) :
    (snprintf n a b).1 = ((a ++ b).length : Int) := by
  unfold snprintf; rw [if_neg (by omega)]

theorem DIR_SEP_length (env : Env) : (DIR_SEP env).length = 1 := by
  unfold DIR_SEP; split <;> rfl

theorem Tibia_pic_length : Tibia_pic.length = 9 := by decide

theorem Tibia_spr_length : Tibia_spr.length = 9 := by decide

theorem Tibia_dat_length : Tibia_dat.length = 9 := by decide

/-- A folder name of up to `INT_MAX - 10` characters composes, whatever
`FILENAME_MAX` is: `snprintf` reports the full length, which is not negative. -/
theorem pathsComposed_of_length (env : Env) (D : List Char) (h : D.length + 10 ≤ 2147483647) :
    pathsComposed env D := by
  refine ⟨?_, ?_, ?_⟩
  · rw [snprintf_fst]; · omega
    simp [DIR_SEP_length, Tibia_pic_length, INT_MAX]; omega
  · rw [snprintf_fst]; · omega
    simp [DIR_SEP_length, Tibia_spr_length, INT_MAX]; omega
  · rw [snprintf_fst]; · omega
    simp [DIR_SEP_length, Tibia_dat_length, INT_MAX]; omega

/-- A joined path that fits in the buffer is stored whole. -/
theorem dataPath_of_fits (env : Env) (D base : List Char)
    (h : D.length + (DIR_SEP env ++ base).length < env.FILENAME_MAX) :
    dataPath env D base = D ++ DIR_SEP env ++ base := by
  unfold dataPath
  rw [snprintf_snd, List.append_assoc]
  apply List.take_of_length_le
  simp only [List.length_append] at h ⊢
  omega

/-! ## The paths through `player_OpenData` -/

theorem callTrace_append (w w2 : World) (l : List Event) (h : w2.trace = w.trace ++ l) :
    callTrace w w2 = l := by
  simp [callTrace, h]

theorem pathsComposed_data (files : List (List Char × Nat × Nat)) :
    pathsComposed (Env.ofFiles files) "data".toList :=
  pathsComposed_of_length _ _ (by decide)

theorem player_OpenData_not_composed (env : Env) (D : List Char) (data : player_data) (w : World)
    (hc : ¬ pathsComposed env D) :
    (player_OpenData env D data w).1 = false ∧ (player_OpenData env D data w).2.2.trace = w.trace ∧
    (player_OpenData env D data w).2.2.mappings = w.mappings := by
  unfold pathsComposed at hc
  unfold player_OpenData
  simp only []
  split_ifs with c1 c2 c3
  · simp [World.fprintf]
  · simp [World.fprintf]
  · simp [World.fprintf]
  · exact absurd ⟨not_lt.mp c1, not_lt.mp c2, not_lt.mp c3⟩ hc

theorem player_OpenData_pic_fails (env : Env) (D : List Char) (data : player_data) (w : World)
    (hc : pathsComposed env D)
    (h1 : env.mapFile w (dataPath env D Tibia_pic) = none) :
    player_OpenData env D data w =
      (false, data, (w.refused (dataPath env D Tibia_pic)).fprintf "Failed to open Tibia.pic\n") := by
  obtain ⟨c1, c2, c3⟩ := hc
  unfold dataPath at *
  unfold player_OpenData
  simp only [if_neg (not_lt.mpr c1), if_neg (not_lt.mpr c2), if_neg (not_lt.mpr c3)]
  rw [memoryfile_Open_none env _ _ _ h1]

theorem player_OpenData_spr_fails (env : Env) (D : List Char) (data : player_data) (w : World)
    (hc : pathsComposed env D) (s1 v1 : Nat)
    (h1 : env.mapFile w (dataPath env D Tibia_pic) = some (s1, v1))
    (h2 : env.mapFile (w.opened (dataPath env D Tibia_pic) s1 v1) (dataPath env D Tibia_spr) = none) :
    player_OpenData env D data w =
      (false, { data with PictureFile := ⟨w.nextFd, s1, v1⟩ },
        ((w.opened (dataPath env D Tibia_pic) s1 v1).refused (dataPath env D Tibia_spr)).fprintf
          "Failed to open Tibia.spr\n") := by
  obtain ⟨c1, c2, c3⟩ := hc
  unfold dataPath at *
  unfold player_OpenData
  simp only [if_neg (not_lt.mpr c1), if_neg (not_lt.mpr c2), if_neg (not_lt.mpr c3)]
  rw [memoryfile_Open_some env _ _ _ _ _ h1]
  simp only []
  rw [memoryfile_Open_none env _ _ _ h2]

theorem player_OpenData_dat_fails (env : Env) (D : List Char) (data : player_data) (w : World)
    (hc : pathsComposed env D) (s1 v1 s2 v2 : Nat)
    (h1 : env.mapFile w (dataPath env D Tibia_pic) = some (s1, v1))
    (h2 : env.mapFile (w.opened (dataPath env D Tibia_pic) s1 v1) (dataPath env D Tibia_spr) =
      some (s2, v2))
    (h3 : env.mapFile ((w.opened (dataPath env D Tibia_pic) s1 v1).opened
      (dataPath env D Tibia_spr) s2 v2) (dataPath env D Tibia_dat) = none) :
    player_OpenData env D data w =
      (false, { data with PictureFile := ⟨w.nextFd, s1, v1⟩, SpriteFile := ⟨w.nextFd + 1, s2, v2⟩ },
        (((w.opened (dataPath env D Tibia_pic) s1 v1).opened (dataPath env D Tibia_spr) s2 v2).refused
          (dataPath env D Tibia_dat)).fprintf "Failed to open Tibia.dat\n") := by
  obtain ⟨c1, c2, c3⟩ := hc
  unfold dataPath at *
  unfold player_OpenData
  simp only [if_neg (not_lt.mpr c1), if_neg (not_lt.mpr c2), if_neg (not_lt.mpr c3)]
  rw [memoryfile_Open_some env _ _ _ _ _ h1]
  simp only []
  rw [memoryfile_Open_some env _ _ _ _ _ h2]
  simp only []
  rw [memoryfile_Open_none env _ _ _ h3]
  rfl

theorem player_OpenData_all_open (env : Env) (D : List Char) (data : player_data) (w : World)
    (hc : pathsComposed env D) (s1 v1 s2 v2 s3 v3 : Nat)
    (h1 : env.mapFile w (dataPath env D Tibia_pic) = some (s1, v1))
    (h2 : env.mapFile (w.opened (dataPath env D Tibia_pic) s1 v1) (dataPath env D Tibia_spr) =
      some (s2, v2))
    (h3 : env.mapFile ((w.opened (dataPath env D Tibia_pic) s1 v1).opened
      (dataPath env D Tibia_spr) s2 v2) (dataPath env D Tibia_dat) = some (s3, v3)) :
    player_OpenData env D data w =
      (true,
        { PictureFile := ⟨w.nextFd, s1, v1⟩, SpriteFile := ⟨w.nextFd + 1, s2, v2⟩,
          TypeFile := ⟨w.nextFd + 2, s3, v3⟩,
          Pictures := ⟨0, v1, (s1 : Int)⟩, Sprites := ⟨0, v2, (s2 : Int)⟩,
          Types := ⟨0, v3, (s3 : Int)⟩ },
        ((w.opened (dataPath env D Tibia_pic) s1 v1).opened (dataPath env D Tibia_spr) s2 v2).opened
          (dataPath env D Tibia_dat) s3 v3) := by
  obtain ⟨c1, c2, c3⟩ := hc
  unfold dataPath at *
  unfold player_OpenData
  simp only [if_neg (not_lt.mpr c1), if_neg (not_lt.mpr c2), if_neg (not_lt.mpr c3)]
  rw [memoryfile_Open_some env _ _ _ _ _ h1]
  simp only []
  rw [memoryfile_Open_some env _ _ _ _ _ h2]
  simp only []
  rw [memoryfile_Open_some env _ _ _ _ _ h3]
  rfl


/-! ## C1: a failed open and the mappings opened before it -/

/-- C1, the code where the claim fails.  When `Tibia.pic` opens and `Tibia.spr`
does not, `player_OpenData` returns false, but the picture mapping is still open
when it returns: the open mappings are those from before the call plus the
picture mapping, and the call has made no `memoryfile_Close` call at all.  (The
`return false` at line 119 comes before the `memoryfile_Close` at line 143.) -/
theorem player_OpenData_sprite_failure_leaves_picture_open (env : Env) (D : List Char)
    (data : player_data) (w : World) (s1 v1 : Nat) (hc : pathsComposed env D)
    (h1 : env.mapFile w (dataPath env D Tibia_pic) = some (s1, v1))
    (h2 : env.mapFile (w.opened (dataPath env D Tibia_pic) s1 v1) (dataPath env D Tibia_spr) = none) :
    (player_OpenData env D data w).1 = false ∧
    (player_OpenData env D data w).2.2.mappings = ⟨w.nextFd, s1, v1⟩ :: w.mappings ∧
    (player_OpenData env D data w).2.2.mappings ≠ w.mappings ∧
    ∀ f, Event.memoryfile_Close f ∉ callTrace w (player_OpenData env D data w).2.2 := by
  rw [player_OpenData_spr_fails env D data w hc s1 v1 h1 h2]
  refine ⟨rfl, rfl, ?_, ?_⟩
  · exact List.cons_ne_self _ _
  · intro f
    rw [callTrace_append w _ [Event.memoryfile_Open (dataPath env D Tibia_pic) (some ⟨w.nextFd, s1, v1⟩),
      Event.memoryfile_Open (dataPath env D Tibia_spr) none]]
    · simp
    · simp [World.fprintf, World.refused, World.opened]

/-- C1 at a concrete input: folder `data` holds `Tibia.pic` but no `Tibia.spr`;
starting with nothing open, the call returns false with descriptor 3 open. -/
theorem player_OpenData_sprite_failure_leaves_picture_open_witness :
    (player_OpenData envNoSprite "data".toList default World.initial).1 = false ∧
    (player_OpenData envNoSprite "data".toList default World.initial).2.2.mappings =
      [⟨3, 100, 4096⟩] ∧
    (player_OpenData envNoSprite "data".toList default World.initial).2.2.mappings ≠ [] ∧
    ∀ f, Event.memoryfile_Close f ∉
      callTrace World.initial (player_OpenData envNoSprite "data".toList default World.initial).2.2 :=
  player_OpenData_sprite_failure_leaves_picture_open envNoSprite "data".toList default
    World.initial 100 4096 (pathsComposed_data _) (by decide) (by decide)

/-! ## C2: success of `player_OpenData` and the readers it builds -/

/-- When `player_OpenData` returns true. -/
theorem player_OpenData_true_iff (env : Env) (D : List Char) (data : player_data) (w : World) :
    (player_OpenData env D data w).1 = true ↔
      pathsComposed env D ∧
      (memoryfile_Open env (dataPath env D Tibia_pic) data.PictureFile w).1 = true ∧
      (memoryfile_Open env (dataPath env D Tibia_spr) data.SpriteFile
        (memoryfile_Open env (dataPath env D Tibia_pic) data.PictureFile w).2.2).1 = true ∧
      (memoryfile_Open env (dataPath env D Tibia_dat) data.TypeFile
        (memoryfile_Open env (dataPath env D Tibia_spr) data.SpriteFile
          (memoryfile_Open env (dataPath env D Tibia_pic) data.PictureFile w).2.2).2.2).1 = true := by
  by_cases hc : pathsComposed env D
  · cases h1 : env.mapFile w (dataPath env D Tibia_pic) with
    | none =>
      simp [player_OpenData_pic_fails env D data w hc h1, memoryfile_Open_none env _ _ w h1]
    | some sv1 =>
      obtain ⟨s1, v1⟩ := sv1
      cases h2 : env.mapFile (w.opened (dataPath env D Tibia_pic) s1 v1)
          (dataPath env D Tibia_spr) with
      | none =>
        simp [player_OpenData_spr_fails env D data w hc s1 v1 h1 h2,
          memoryfile_Open_some env _ _ w s1 v1 h1, memoryfile_Open_none env _ _ _ h2]
      | some sv2 =>
        obtain ⟨s2, v2⟩ := sv2
        cases h3 : env.mapFile ((w.opened (dataPath env D Tibia_pic) s1 v1).opened
            (dataPath env D Tibia_spr) s2 v2) (dataPath env D Tibia_dat) with
        | none =>
          simp [player_OpenData_dat_fails env D data w hc s1 v1 s2 v2 h1 h2 h3,
            memoryfile_Open_some env _ _ w s1 v1 h1, memoryfile_Open_some env _ _ _ s2 v2 h2,
            memoryfile_Open_none env _ _ _ h3]
        | some sv3 =>
          obtain ⟨s3, v3⟩ := sv3
          simp [player_OpenData_all_open env D data w hc s1 v1 s2 v2 s3 v3 h1 h2 h3,
            memoryfile_Open_some env _ _ w s1 v1 h1, memoryfile_Open_some env _ _ _ s2 v2 h2,
            memoryfile_Open_some env _ _ _ s3 v3 h3, hc]
  · have h := player_OpenData_not_composed env D data w hc
    simp [h.1, hc]

/-- What `player_OpenData` does when it returns true, with success of path
composition taken as the code tests it (`pathsComposed`, which also holds for
joined paths that are cut short).  It returns true exactly when that test
passes and the three `memoryfile_Open` calls (picture, sprite, type, each in
the state the previous one left) all succeed.  Then `PictureFile`,
`SpriteFile`, `TypeFile` are the three mappings, and each reader has `Data`
equal to the `View` and `Length` equal to the `Size` of its mapping, with
`Position` 0.  In particular files of lengths `s1`, `s2`, `s3` give readers of
lengths `s1`, `s2`, `s3`. -/
theorem player_OpenData_success_readers (env : Env) (D : List Char) (data : player_data)
    (w : World) :
    ((player_OpenData env D data w).1 = true ↔
      pathsComposed env D ∧
      (memoryfile_Open env (dataPath env D Tibia_pic) data.PictureFile w).1 = true ∧
      (memoryfile_Open env (dataPath env D Tibia_spr) data.SpriteFile
        (memoryfile_Open env (dataPath env D Tibia_pic) data.PictureFile w).2.2).1 = true ∧
      (memoryfile_Open env (dataPath env D Tibia_dat) data.TypeFile
        (memoryfile_Open env (dataPath env D Tibia_spr) data.SpriteFile
          (memoryfile_Open env (dataPath env D Tibia_pic) data.PictureFile w).2.2).2.2).1 = true) ∧
    ((player_OpenData env D data w).1 = true →
      (player_OpenData env D data w).2.1.PictureFile =
        (memoryfile_Open env (dataPath env D Tibia_pic) data.PictureFile w).2.1 ∧
      (player_OpenData env D data w).2.1.SpriteFile =
        (memoryfile_Open env (dataPath env D Tibia_spr) data.SpriteFile
          (memoryfile_Open env (dataPath env D Tibia_pic) data.PictureFile w).2.2).2.1 ∧
      (player_OpenData env D data w).2.1.TypeFile =
        (memoryfile_Open env (dataPath env D Tibia_dat) data.TypeFile
          (memoryfile_Open env (dataPath env D Tibia_spr) data.SpriteFile
            (memoryfile_Open env (dataPath env D Tibia_pic) data.PictureFile w).2.2).2.2).2.1 ∧
      (player_OpenData env D data w).2.1.Pictures =
        { Data := (player_OpenData env D data w).2.1.PictureFile.View,
          Length := ((player_OpenData env D data w).2.1.PictureFile.Size : Int),
          Position := 0 } ∧
      (player_OpenData env D data w).2.1.Sprites =
        { Data := (player_OpenData env D data w).2.1.SpriteFile.View,
          Length := ((player_OpenData env D data w).2.1.SpriteFile.Size : Int),
          Position := 0 } ∧
      (player_OpenData env D data w).2.1.Types =
        { Data := (player_OpenData env D data w).2.1.TypeFile.View,
          Length := ((player_OpenData env D data w).2.1.TypeFile.Size : Int),
          Position := 0 }) ∧
    (∀ s1 v1 s2 v2 s3 v3 : Nat, pathsComposed env D →
      env.mapFile w (dataPath env D Tibia_pic) = some (s1, v1) →
      env.mapFile (w.opened (dataPath env D Tibia_pic) s1 v1) (dataPath env D Tibia_spr) =
        some (s2, v2) →
      env.mapFile ((w.opened (dataPath env D Tibia_pic) s1 v1).opened (dataPath env D Tibia_spr)
        s2 v2) (dataPath env D Tibia_dat) = some (s3, v3) →
      (player_OpenData env D data w).1 = true ∧
      (player_OpenData env D data w).2.1.Pictures.Length = (s1 : Int) ∧
      (player_OpenData env D data w).2.1.Sprites.Length = (s2 : Int) ∧
      (player_OpenData env D data w).2.1.Types.Length = (s3 : Int)) := by
  refine ⟨player_OpenData_true_iff env D data w, ?_, ?_⟩
  · intro ht
    by_cases hc : pathsComposed env D
    · cases h1 : env.mapFile w (dataPath env D Tibia_pic) with
      | none => simp [player_OpenData_pic_fails env D data w hc h1] at ht
      | some sv1 =>
        obtain ⟨s1, v1⟩ := sv1
        cases h2 : env.mapFile (w.opened (dataPath env D Tibia_pic) s1 v1)
            (dataPath env D Tibia_spr) with
        | none => simp [player_OpenData_spr_fails env D data w hc s1 v1 h1 h2] at ht
        | some sv2 =>
          obtain ⟨s2, v2⟩ := sv2
          cases h3 : env.mapFile ((w.opened (dataPath env D Tibia_pic) s1 v1).opened
              (dataPath env D Tibia_spr) s2 v2) (dataPath env D Tibia_dat) with
          | none => simp [player_OpenData_dat_fails env D data w hc s1 v1 s2 v2 h1 h2 h3] at ht
          | some sv3 =>
            obtain ⟨s3, v3⟩ := sv3
            simp [player_OpenData_all_open env D data w hc s1 v1 s2 v2 s3 v3 h1 h2 h3,
              memoryfile_Open_some env _ _ w s1 v1 h1, memoryfile_Open_some env _ _ _ s2 v2 h2,
              memoryfile_Open_some env _ _ _ s3 v3 h3]
            exact ⟨rfl, rfl⟩
    · have h := player_OpenData_not_composed env D data w hc
      simp [h.1] at ht
  · intro s1 v1 s2 v2 s3 v3 hc h1 h2 h3
    simp [player_OpenData_all_open env D data w hc s1 v1 s2 v2 s3 v3 h1 h2 h3]

/-- Readers at concrete inputs: tables of 100, 200 and 50 bytes give readers of
lengths 100, 200 and 50; an empty `Tibia.pic` gives a picture reader of length 0. -/
theorem player_OpenData_success_readers_example :
    ((player_OpenData envComplete "data".toList default World.initial).1 = true ∧
      (player_OpenData envComplete "data".toList default World.initial).2.1.Pictures.Length = 100 ∧
      (player_OpenData envComplete "data".toList default World.initial).2.1.Sprites.Length = 200 ∧
      (player_OpenData envComplete "data".toList default World.initial).2.1.Types.Length = 50) ∧
    ((player_OpenData envEmptyPicture "data".toList default World.initial).1 = true ∧
      (player_OpenData envEmptyPicture "data".toList default World.initial).2.1.Pictures.Length = 0 ∧
      (player_OpenData envEmptyPicture "data".toList default World.initial).2.1.Sprites.Length = 200 ∧
      (player_OpenData envEmptyPicture "data".toList default World.initial).2.1.Types.Length = 50) :=
  ⟨(player_OpenData_success_readers envComplete "data".toList default World.initial).2.2
      100 4096 200 8192 50 12288 (pathsComposed_data _) (by decide) (by decide) (by decide),
   (player_OpenData_success_readers envEmptyPicture "data".toList default World.initial).2.2
      0 4096 200 8192 50 12288 (pathsComposed_data _) (by decide) (by decide) (by decide)⟩


/-- C2, the code where the claim fails.  When the joined paths and their
terminators need more than `FILENAME_MAX` bytes (and the length still fits an
`int`), path composition has failed as the specification means it
(`pathsFit` is false, and the picture buffer holds less than the joined path),
yet when the three `memoryfile_Open` calls on the shortened paths succeed,
`player_OpenData` returns true.  The readers it then returns do alias the full
views of the three mappings: `Data` is the `View`, `Length` the `Size`, and
`Position` is 0. -/
theorem player_OpenData_true_though_paths_do_not_fit (env : Env) (D : List Char)
    (data : player_data) (w : World) (hlong : env.FILENAME_MAX ≤ D.length + 10)
    (hint : D.length + 10 ≤ 2147483647)
    (h1 : (memoryfile_Open env (dataPath env D Tibia_pic) data.PictureFile w).1 = true)
    (h2 : (memoryfile_Open env (dataPath env D Tibia_spr) data.SpriteFile
      (memoryfile_Open env (dataPath env D Tibia_pic) data.PictureFile w).2.2).1 = true)
    (h3 : (memoryfile_Open env (dataPath env D Tibia_dat) data.TypeFile
      (memoryfile_Open env (dataPath env D Tibia_spr) data.SpriteFile
        (memoryfile_Open env (dataPath env D Tibia_pic) data.PictureFile w).2.2).2.2).1 = true) :
    ¬ pathsFit env D ∧
    (dataPath env D Tibia_pic).length < (D ++ DIR_SEP env ++ Tibia_pic).length ∧
    (player_OpenData env D data w).1 = true ∧
    (player_OpenData env D data w).2.1.Pictures =
      { Data := (player_OpenData env D data w).2.1.PictureFile.View,
        Length := ((player_OpenData env D data w).2.1.PictureFile.Size : Int),
        Position := 0 } ∧
    (player_OpenData env D data w).2.1.Sprites =
      { Data := (player_OpenData env D data w).2.1.SpriteFile.View,
        Length := ((player_OpenData env D data w).2.1.SpriteFile.Size : Int),
        Position := 0 } ∧
    (player_OpenData env D data w).2.1.Types =
      { Data := (player_OpenData env D data w).2.1.TypeFile.View,
        Length := ((player_OpenData env D data w).2.1.TypeFile.Size : Int),
        Position := 0 } := by
  have hc : pathsComposed env D := pathsComposed_of_length env D hint
  have ht : (player_OpenData env D data w).1 = true :=
    (player_OpenData_true_iff env D data w).mpr ⟨hc, h1, h2, h3⟩
  obtain ⟨-, -, -, r1, r2, r3⟩ := (player_OpenData_success_readers env D data w).2.1 ht
  refine ⟨?_, ?_, ht, r1, r2, r3⟩
  · rintro ⟨hp, -, -⟩
    simp only [List.length_append, DIR_SEP_length, Tibia_pic_length] at hp
    omega
  · unfold dataPath
    rw [snprintf_snd, List.append_assoc]
    simp [DIR_SEP_length, Tibia_pic_length]
    omega

/-- C2 at a concrete input: `FILENAME_MAX = 4096`, a folder name of 4090
characters (joined paths of 4100), and every path naming a file. -/
theorem player_OpenData_true_though_paths_do_not_fit_witness :
    ¬ pathsFit envEveryPath (List.replicate 4090 'a') ∧
    (dataPath envEveryPath (List.replicate 4090 'a') Tibia_pic).length <
      (List.replicate 4090 'a' ++ DIR_SEP envEveryPath ++ Tibia_pic).length ∧
    (player_OpenData envEveryPath (List.replicate 4090 'a') default World.initial).1 = true :=
  have h := player_OpenData_true_though_paths_do_not_fit envEveryPath (List.replicate 4090 'a')
    default World.initial (by show 4096 ≤ _; rw [List.length_replicate]; norm_num)
    (by rw [List.length_replicate]; norm_num) rfl rfl rfl
  ⟨h.1, h.2.1, h.2.2.1⟩

/-- The `memoryfile_Open` calls of `player_OpenData`, as (path, result) pairs in
call order, when path composition succeeds: a non-empty beginning of the three
buffers in the order picture, sprite, type; every call before the last one
succeeded; a last call that is not the third one failed. -/
theorem player_OpenData_calls (env : Env) (D : List Char) (data : player_data) (w : World)
    (hc : pathsComposed env D) :
    ∃ L : List (List Char × Option memory_file),
      (player_OpenData env D data w).2.2.trace = w.trace ++ L.map openEvent ∧
      L.map Prod.fst <+:
        [dataPath env D Tibia_pic, dataPath env D Tibia_spr, dataPath env D Tibia_dat] ∧
      L ≠ [] ∧
      (∀ c ∈ L.dropLast, c.2.isSome = true) ∧
      (L.length < 3 → ∃ c, L.getLast? = some c ∧ c.2 = none) ∧
      ((∀ c ∈ L, c.2.isSome = true) → L.length = 3) := by
  cases h1 : env.mapFile w (dataPath env D Tibia_pic) with
  | none =>
    refine ⟨[(dataPath env D Tibia_pic, none)], ?_⟩
    rw [player_OpenData_pic_fails env D data w hc h1]
    simp [World.fprintf, World.refused, openEvent]
  | some sv1 =>
    obtain ⟨s1, v1⟩ := sv1
    cases h2 : env.mapFile (w.opened (dataPath env D Tibia_pic) s1 v1)
        (dataPath env D Tibia_spr) with
    | none =>
      refine ⟨[(dataPath env D Tibia_pic, some ⟨w.nextFd, s1, v1⟩),
        (dataPath env D Tibia_spr, none)], ?_⟩
      rw [player_OpenData_spr_fails env D data w hc s1 v1 h1 h2]
      simp [World.fprintf, World.refused, World.opened, openEvent]
    | some sv2 =>
      obtain ⟨s2, v2⟩ := sv2
      cases h3 : env.mapFile ((w.opened (dataPath env D Tibia_pic) s1 v1).opened
          (dataPath env D Tibia_spr) s2 v2) (dataPath env D Tibia_dat) with
      | none =>
        refine ⟨[(dataPath env D Tibia_pic, some ⟨w.nextFd, s1, v1⟩),
          (dataPath env D Tibia_spr, some ⟨w.nextFd + 1, s2, v2⟩),
          (dataPath env D Tibia_dat, none)], ?_⟩
        rw [player_OpenData_dat_fails env D data w hc s1 v1 s2 v2 h1 h2 h3]
        simp [World.fprintf, World.refused, World.opened, openEvent]
      | some sv3 =>
        obtain ⟨s3, v3⟩ := sv3
        refine ⟨[(dataPath env D Tibia_pic, some ⟨w.nextFd, s1, v1⟩),
          (dataPath env D Tibia_spr, some ⟨w.nextFd + 1, s2, v2⟩),
          (dataPath env D Tibia_dat, some ⟨w.nextFd + 2, s3, v3⟩)], ?_⟩
        rw [player_OpenData_all_open env D data w hc s1 v1 s2 v2 s3 v3 h1 h2 h3]
        simp [World.opened, openEvent]

/-! ## C3: a joined path that does not fit in the buffer -/

/-- C3, the code where the claim fails.  When the joined path and its terminator
need more than `FILENAME_MAX` bytes (and the length still fits an `int`),
`snprintf` cuts the path short and returns its full length, which is not
negative, so the test `< 0` at lines 86-111 does not fire: path composition
counts as successful, the picture buffer holds only the first
`FILENAME_MAX - 1` characters of the joined path, the first external call of
`player_OpenData` is `memoryfile_Open` on that shortened path, and where every
path can be mapped the function returns true. -/
theorem player_OpenData_opens_truncated_path (env : Env) (D : List Char) (data : player_data)
    (w : World) (hlong : env.FILENAME_MAX ≤ D.length + 10)
    (hint : D.length + 10 ≤ 2147483647) :
    pathsComposed env D ∧
    dataPath env D Tibia_pic = (D ++ DIR_SEP env ++ Tibia_pic).take (env.FILENAME_MAX - 1) ∧
    (dataPath env D Tibia_pic).length < (D ++ DIR_SEP env ++ Tibia_pic).length ∧
    (∃ r rest, callTrace w (player_OpenData env D data w).2.2 =
      Event.memoryfile_Open (dataPath env D Tibia_pic) r :: rest) ∧
    ((∀ w1 path, (env.mapFile w1 path).isSome = true) →
      (player_OpenData env D data w).1 = true) := by
  have hc : pathsComposed env D := pathsComposed_of_length env D hint
  have hp : dataPath env D Tibia_pic =
      (D ++ DIR_SEP env ++ Tibia_pic).take (env.FILENAME_MAX - 1) := by
    unfold dataPath; rw [snprintf_snd, List.append_assoc]
  refine ⟨hc, hp, ?_, ?_, ?_⟩
  · rw [hp]
    simp [DIR_SEP_length, Tibia_pic_length]
    omega
  · obtain ⟨L, ht, hpre, hne, -⟩ := player_OpenData_calls env D data w hc
    rw [callTrace_append w _ _ ht]
    cases L with
    | nil => exact absurd rfl hne
    | cons c L =>
      refine ⟨c.2, L.map openEvent, ?_⟩
      have : c.1 = dataPath env D Tibia_pic := by
        obtain ⟨t, ht⟩ := hpre
        simp at ht
        exact ht.1
      simp [openEvent, this]
  · intro hall
    have hopen : ∀ path file w1, (memoryfile_Open env path file w1).1 = true := by
      intro path file w1
      rw [memoryfile_Open_true_iff]
      cases h : env.mapFile w1 path with
      | none => have := hall w1 path; simp [h] at this
      | some sv => exact ⟨sv.1, sv.2, rfl⟩
    rw [player_OpenData_true_iff env D data w]
    exact ⟨hc, hopen _ _ _, hopen _ _ _, hopen _ _ _⟩

/-- C3 at a concrete input: `FILENAME_MAX = 4096` and a folder name of 4090
characters, whose joined path has 4100. -/
theorem player_OpenData_opens_truncated_path_witness :
    pathsComposed envEveryPath (List.replicate 4090 'a') ∧
    dataPath envEveryPath (List.replicate 4090 'a') Tibia_pic =
      (List.replicate 4090 'a' ++ DIR_SEP envEveryPath ++ Tibia_pic).take
        (envEveryPath.FILENAME_MAX - 1) ∧
    (dataPath envEveryPath (List.replicate 4090 'a') Tibia_pic).length <
      (List.replicate 4090 'a' ++ DIR_SEP envEveryPath ++ Tibia_pic).length ∧
    (∃ r rest, callTrace World.initial
        (player_OpenData envEveryPath (List.replicate 4090 'a') default World.initial).2.2 =
      Event.memoryfile_Open (dataPath envEveryPath (List.replicate 4090 'a') Tibia_pic) r :: rest) ∧
    ((∀ w1 path, (envEveryPath.mapFile w1 path).isSome = true) →
      (player_OpenData envEveryPath (List.replicate 4090 'a') default World.initial).1 = true) :=
  player_OpenData_opens_truncated_path envEveryPath (List.replicate 4090 'a') default
    World.initial (by show 4096 ≤ _; rw [List.length_replicate]; norm_num)
    (by rw [List.length_replicate]; norm_num)


/-! ## C10: which files are opened, and in which order -/

/-- C10.  When the joined paths fit in the path buffers (folder name plus ten
characters plus the terminator within `FILENAME_MAX`, itself an `int`), the
external calls of `player_OpenData` are exactly a non-empty beginning of
`memoryfile_Open` on `D DIR_SEP Tibia.pic`, `D DIR_SEP Tibia.spr`,
`D DIR_SEP Tibia.dat`, in that order, with `DIR_SEP` the separator of the
platform: every call before the last succeeded, a last call that is not the
third one failed, and when no call fails there are three. -/
theorem player_OpenData_open_order (env : Env) (D : List Char) (data : player_data) (w : World)
    (hmax : (env.FILENAME_MAX : Int) ≤ INT_MAX)
    (hfit : D.length + 10 < env.FILENAME_MAX) :
    DIR_SEP env = (if env.win32 then [Char.ofNat 92] else ['/']) ∧
    ∃ L : List (List Char × Option memory_file),
      (player_OpenData env D data w).2.2.trace = w.trace ++ L.map openEvent ∧
      L.map Prod.fst <+:
        [D ++ DIR_SEP env ++ Tibia_pic, D ++ DIR_SEP env ++ Tibia_spr,
         D ++ DIR_SEP env ++ Tibia_dat] ∧
      L ≠ [] ∧
      (∀ c ∈ L.dropLast, c.2.isSome = true) ∧
      (L.length < 3 → ∃ c, L.getLast? = some c ∧ c.2 = none) ∧
      ((∀ c ∈ L, c.2.isSome = true) → L.length = 3) := by
  refine ⟨rfl, ?_⟩
  have hc : pathsComposed env D :=
    pathsComposed_of_length env D (by unfold INT_MAX at hmax; omega)
  have e1 : dataPath env D Tibia_pic = D ++ DIR_SEP env ++ Tibia_pic :=
    dataPath_of_fits env D _ (by simp [DIR_SEP_length, Tibia_pic_length]; omega)
  have e2 : dataPath env D Tibia_spr = D ++ DIR_SEP env ++ Tibia_spr :=
    dataPath_of_fits env D _ (by simp [DIR_SEP_length, Tibia_spr_length]; omega)
  have e3 : dataPath env D Tibia_dat = D ++ DIR_SEP env ++ Tibia_dat :=
    dataPath_of_fits env D _ (by simp [DIR_SEP_length, Tibia_dat_length]; omega)
  have h := player_OpenData_calls env D data w hc
  rw [e1, e2, e3] at h
  exact h

/-- C10 at a concrete input: folder `data` without `Tibia.spr`. -/
theorem player_OpenData_open_order_witness :
    DIR_SEP envNoSprite = (if envNoSprite.win32 then [Char.ofNat 92] else ['/']) ∧
    ∃ L : List (List Char × Option memory_file),
      (player_OpenData envNoSprite "data".toList default World.initial).2.2.trace =
        World.initial.trace ++ L.map openEvent ∧
      L.map Prod.fst <+:
        ["data".toList ++ DIR_SEP envNoSprite ++ Tibia_pic,
         "data".toList ++ DIR_SEP envNoSprite ++ Tibia_spr,
         "data".toList ++ DIR_SEP envNoSprite ++ Tibia_dat] ∧
      L ≠ [] ∧
      (∀ c ∈ L.dropLast, c.2.isSome = true) ∧
      (L.length < 3 → ∃ c, L.getLast? = some c ∧ c.2 = none) ∧
      ((∀ c ∈ L, c.2.isSome = true) → L.length = 3) :=
  player_OpenData_open_order envNoSprite "data".toList default World.initial
    (by decide) (by decide)

/-! ## `load_files` -/

theorem load_files_on_not_loaded (env : Env) (a : Regions) (w : World)
    (h : w.playback_loaded = false) :
    load_files_on env a w =
      { w with nextSession := w.nextSession + 1,
               playback := some w.nextSession,
               sessions := w.nextSession :: w.sessions,
               playback_loaded := true,
               trace := w.trace ++ [loadInitEvent env a w, Event.free a.pic_data,
                                    Event.free a.spr_data, Event.free a.dat_data] } := by
  simp [load_files_on, load_files, h, playback_Init, free, loadInitEvent]

theorem load_files_on_loaded (env : Env) (a : Regions) (w : World)
    (h : w.playback_loaded = true) :
    load_files_on env a w =
      { w with nextSession := w.nextSession + 1,
               playback := some w.nextSession,
               sessions := w.nextSession :: (playback_Free w).sessions,
               playback_loaded := true,
               trace := w.trace ++ [Event.playback_Free w.playback,
                                    loadInitEvent env a (playback_Free w), Event.free a.pic_data,
                                    Event.free a.spr_data, Event.free a.dat_data] } := by
  simp [load_files_on, load_files, h, playback_Init, free, loadInitEvent, playback_Free]

/-! ## C4: which buffers `load_files` frees, and when -/

/-- C4.  The external calls of one `load_files` call end with `playback_Init`
on the four readers followed by `free(pic_data)`, `free(spr_data)`,
`free(dat_data)`, and no `free` call comes before `playback_Init`: each
resource buffer is handed to `free` once, after `playback_Init` has returned,
and no `free` call is made for the recording argument.  For four separate
buffers (pairwise different addresses) that is: each of the picture, sprite and
type buffers is freed exactly once and the recording buffer is not freed. -/
theorem load_files_frees_resource_buffers (env : Env) (a : Regions) (w : World) :
    (∃ pre init,
      callTrace w (load_files_on env a w) =
        pre ++ [init, Event.free a.pic_data, Event.free a.spr_data, Event.free a.dat_data] ∧
      (∃ s r, init = Event.playback_Init s [] ⟨0, a.recording_data, a.recording_length⟩ 0 0 0
        ⟨0, a.pic_data, a.pic_length⟩ ⟨0, a.spr_data, a.spr_length⟩
        ⟨0, a.dat_data, a.dat_length⟩ r) ∧
      ∀ p, Event.free p ∉ pre) ∧
    ([a.recording_data, a.pic_data, a.spr_data, a.dat_data].Nodup →
      (callTrace w (load_files_on env a w)).count (Event.free a.pic_data) = 1 ∧
      (callTrace w (load_files_on env a w)).count (Event.free a.spr_data) = 1 ∧
      (callTrace w (load_files_on env a w)).count (Event.free a.dat_data) = 1 ∧
      (callTrace w (load_files_on env a w)).count (Event.free a.recording_data) = 0) := by
  cases h : w.playback_loaded with
  | false =>
    rw [load_files_on_not_loaded env a w h, callTrace_append w _ _ rfl]
    refine ⟨⟨[], _, rfl, ⟨_, _, rfl⟩, by simp⟩, ?_⟩
    intro hd
    simp only [List.nodup_cons, List.mem_cons, List.not_mem_nil, or_false, not_or] at hd
    obtain ⟨⟨h1, h2, h3⟩, ⟨h4, h5⟩, h6, -⟩ := hd
    simp [loadInitEvent, List.count_cons, h1, h2, h3, h4, h5, h6, Ne.symm h1, Ne.symm h2,
      Ne.symm h3, Ne.symm h4, Ne.symm h5, Ne.symm h6]
  | true =>
    rw [load_files_on_loaded env a w h, callTrace_append w _ _ rfl]
    refine ⟨⟨[Event.playback_Free w.playback], _, rfl, ⟨_, _, rfl⟩, by simp⟩, ?_⟩
    intro hd
    simp only [List.nodup_cons, List.mem_cons, List.not_mem_nil, or_false, not_or] at hd
    obtain ⟨⟨h1, h2, h3⟩, ⟨h4, h5⟩, h6, -⟩ := hd
    simp [loadInitEvent, List.count_cons, h1, h2, h3, h4, h5, h6, Ne.symm h1, Ne.symm h2,
      Ne.symm h3, Ne.symm h4, Ne.symm h5, Ne.symm h6]

/-- C4 at a concrete input: four buffers at 4096, 8192, 12288 and 16384. -/
theorem load_files_frees_resource_buffers_witness :
    (callTrace World.initial (load_files_on envComplete regionsExample World.initial)).count
      (Event.free 8192) = 1 ∧
    (callTrace World.initial (load_files_on envComplete regionsExample World.initial)).count
      (Event.free 12288) = 1 ∧
    (callTrace World.initial (load_files_on envComplete regionsExample World.initial)).count
      (Event.free 16384) = 1 ∧
    (callTrace World.initial (load_files_on envComplete regionsExample World.initial)).count
      (Event.free 4096) = 0 :=
  (load_files_frees_resource_buffers envComplete regionsExample World.initial).2 (by decide)

/-! ## C5: one live playback session -/

theorem liveAfter_append (t l : List Event) : liveAfter (t ++ l) = l.foldl liveStep (liveAfter t) := by
  simp [liveAfter, List.foldl_append]

theorem prefix_append_cases {α : Type} (t a b : List α) (h : t <+: a ++ b) :
    t <+: a ∨ ∃ u, t = a ++ u ∧ u <+: b := by
  rcases List.prefix_or_prefix_of_prefix h (List.prefix_append a b) with h1 | h1
  · exact Or.inl h1
  · obtain ⟨u, rfl⟩ := h1
    exact Or.inr ⟨u, rfl, (List.prefix_append_right_inj a).mp h⟩

theorem Consistent_initial : Consistent World.initial := by
  refine ⟨rfl, rfl, by simp [World.initial], by simp [World.initial], ?_⟩
  intro t ht
  have : t = [] := by simpa [World.initial] using ht
  subst this
  simp [liveAfter]

theorem Consistent_load_files_on (env : Env) (a : Regions) (w : World) (hw : Consistent w) :
    Consistent (load_files_on env a w) ∧
    (load_files_on env a w).sessions = [w.nextSession] ∧
    (load_files_on env a w).nextSession = w.nextSession + 1 ∧
    (load_files_on env a w).playback_loaded = true := by
  obtain ⟨hlive, hheld, hflag, hfresh, hnever⟩ := hw
  cases h : w.playback_loaded with
  | false =>
    have hp : w.playback = none := by
      cases hq : w.playback with
      | none => rfl
      | some s => have := hflag.mpr (by simp [hq]); simp [h] at this
    have hs : w.sessions = [] := by rw [hheld, hp]; rfl
    rw [load_files_on_not_loaded env a w h]
    refine ⟨⟨?_, ?_, ?_, ?_, ?_⟩, ?_, rfl, rfl⟩
    · simp [liveAfter_append, hlive, hs, loadInitEvent, liveStep]
    · simp [hs]
    · simp
    · simp [hs]
    · intro t ht
      rcases prefix_append_cases _ _ _ ht with h1 | ⟨u, rfl, hu⟩
      · exact hnever t h1
      · rw [liveAfter_append, hlive, hs]
        simp only [List.prefix_cons_iff, List.prefix_nil] at hu
        rcases hu with rfl | ⟨u1, rfl, rfl | ⟨u2, rfl, rfl | ⟨u3, rfl, rfl | ⟨u4, rfl, rfl⟩⟩⟩⟩ <;>
          simp [loadInitEvent, liveStep]
    · simp [hs]
  | true =>
    obtain ⟨s, hq⟩ := Option.isSome_iff_exists.mp (hflag.mp h)
    have hs : w.sessions = [s] := by rw [hheld, hq]; rfl
    rw [load_files_on_loaded env a w h]
    refine ⟨⟨?_, ?_, ?_, ?_, ?_⟩, ?_, rfl, rfl⟩
    · simp [liveAfter_append, hlive, hs, hq, loadInitEvent, liveStep, playback_Free]
    · simp [hs, hq, playback_Free]
    · simp
    · simp [hs, hq, playback_Free]
    · intro t ht
      rcases prefix_append_cases _ _ _ ht with h1 | ⟨u, rfl, hu⟩
      · exact hnever t h1
      · rw [liveAfter_append, hlive, hs]
        simp only [List.prefix_cons_iff, List.prefix_nil] at hu
        rcases hu with rfl | ⟨u1, rfl, rfl | ⟨u2, rfl, rfl | ⟨u3, rfl, rfl | ⟨u4, rfl,
          rfl | ⟨u5, rfl, rfl⟩⟩⟩⟩⟩ <;>
          simp [loadInitEvent, liveStep, hq, playback_Free]
    · simp [hs, hq, playback_Free]

theorem Consistent_load_files_sequence (env : Env) (calls : List Regions) (w : World)
    (hw : Consistent w) : Consistent (load_files_sequence env calls w) := by
  induction calls generalizing w with
  | nil => exact hw
  | cons a calls ih =>
    exact ih _ (Consistent_load_files_on env a w hw).1

/-- C5.  For every sequence of `load_files` calls from program start: at no
moment of the run (after no beginning of its trace) is more than one playback
session live, and the sessions the final state holds as live are those the
trace accounts for.  When a session is loaded, the next call starts with
`playback_Free` on exactly that session, then calls `playback_Init`, and the
old session is not live afterwards.  After two further calls in succession the
session built by the first has been handed to `playback_Free` and the only live
session is the one built by the second. -/
theorem load_files_one_live_session (env : Env) (calls : List Regions) :
    (∀ t, t <+: (load_files_sequence env calls World.initial).trace →
      (liveAfter t).length ≤ 1) ∧
    (load_files_sequence env calls World.initial).sessions =
      liveAfter (load_files_sequence env calls World.initial).trace ∧
    (∀ a, (load_files_sequence env calls World.initial).playback_loaded = true →
      ∃ s,
        (load_files_sequence env calls World.initial).playback = some s ∧
        (load_files_sequence env calls World.initial).sessions = [s] ∧
        callTrace (load_files_sequence env calls World.initial)
            (load_files_on env a (load_files_sequence env calls World.initial)) =
          [Event.playback_Free (some s),
           loadInitEvent env a (playback_Free (load_files_sequence env calls World.initial)),
           Event.free a.pic_data, Event.free a.spr_data, Event.free a.dat_data] ∧
        s ∉ (load_files_on env a (load_files_sequence env calls World.initial)).sessions) ∧
    (∀ a b,
      (load_files_on env a (load_files_sequence env calls World.initial)).sessions =
        [(load_files_sequence env calls World.initial).nextSession] ∧
      (load_files_on env b
          (load_files_on env a (load_files_sequence env calls World.initial))).sessions =
        [(load_files_sequence env calls World.initial).nextSession + 1] ∧
      (load_files_sequence env calls World.initial).nextSession ∉
        (load_files_on env b
          (load_files_on env a (load_files_sequence env calls World.initial))).sessions ∧
      Event.playback_Free (some (load_files_sequence env calls World.initial).nextSession) ∈
        callTrace (load_files_on env a (load_files_sequence env calls World.initial))
          (load_files_on env b
            (load_files_on env a (load_files_sequence env calls World.initial)))) := by
  have hw := Consistent_load_files_sequence env calls World.initial Consistent_initial
  generalize load_files_sequence env calls World.initial = w at hw ⊢
  refine ⟨hw.never, hw.live.symm, ?_, ?_⟩
  · intro a hl
    obtain ⟨s, hq⟩ := Option.isSome_iff_exists.mp (hw.flag.mp hl)
    have hs : w.sessions = [s] := by rw [hw.held, hq]; rfl
    have hn := (Consistent_load_files_on env a w hw).2.1
    refine ⟨s, hq, hs, ?_, ?_⟩
    · rw [load_files_on_loaded env a w hl, callTrace_append w _ _ rfl, hq]
    · rw [hn]
      have := hw.fresh s (by simp [hs])
      simp only [List.mem_singleton]
      omega
  · intro a b
    obtain ⟨h1, hs1, hn1, hl1⟩ := Consistent_load_files_on env a w hw
    obtain ⟨-, hs2, -, -⟩ := Consistent_load_files_on env b _ h1
    refine ⟨hs1, by rw [hs2, hn1], by rw [hs2, hn1]; simp, ?_⟩
    have hp : (load_files_on env a w).playback = some w.nextSession := by
      have := h1.held
      rw [hs1] at this
      cases hq : (load_files_on env a w).playback with
      | none => simp [hq] at this
      | some s => simp [hq] at this; rw [this]
    rw [load_files_on_loaded env b _ hl1, callTrace_append _ _ _ rfl, hp]
    simp

/-- C5 at a concrete input: a second `load_files` call after a first one. -/
theorem load_files_one_live_session_witness :
    (load_files_sequence envComplete [regionsExample] World.initial).playback_loaded = true ∧
    ∃ s,
      (load_files_sequence envComplete [regionsExample] World.initial).playback = some s ∧
      (load_files_sequence envComplete [regionsExample] World.initial).sessions = [s] ∧
      callTrace (load_files_sequence envComplete [regionsExample] World.initial)
          (load_files_on envComplete regionsExample
            (load_files_sequence envComplete [regionsExample] World.initial)) =
        [Event.playback_Free (some s),
         loadInitEvent envComplete regionsExample
           (playback_Free (load_files_sequence envComplete [regionsExample] World.initial)),
         Event.free regionsExample.pic_data, Event.free regionsExample.spr_data,
         Event.free regionsExample.dat_data] ∧
      s ∉ (load_files_on envComplete regionsExample
        (load_files_sequence envComplete [regionsExample] World.initial)).sessions :=
  ⟨rfl, (load_files_one_live_session envComplete [regionsExample]).2.2.1 regionsExample rfl⟩

/-! ## Facts about the version scan -/

theorem skipSpace_decompose (s : List Char) :
    ∃ ws, (∀ c ∈ ws, isspace c = true) ∧ s = ws ++ skipSpace s := by
  induction s with
  | nil => exact ⟨[], by simp, rfl⟩
  | cons c cs ih =>
    by_cases h : isspace c = true
    · obtain ⟨ws, hws, hs⟩ := ih
      refine ⟨c :: ws, ?_, ?_⟩
      · intro d hd
        rcases List.mem_cons.mp hd with rfl | hd
        · exact h
        · exact hws d hd
      · simp only [skipSpace, h, if_true, List.cons_append]
        rw [← hs]
    · exact ⟨[], by simp, by simp [skipSpace, h]⟩

theorem scanDigits_decompose (s : List Char) (acc : Nat) :
    ∃ M, (∀ c ∈ M, isdigit c = true) ∧ s = M ++ (scanDigits acc s).2 := by
  induction s generalizing acc with
  | nil => exact ⟨[], by simp, rfl⟩
  | cons c cs ih =>
    by_cases h : isdigit c = true
    · obtain ⟨M, hM, hs⟩ := ih (acc * 10 + (c.toNat - 48))
      refine ⟨c :: M, ?_, ?_⟩
      · intro d hd
        rcases List.mem_cons.mp hd with rfl | hd
        · exact h
        · exact hM d hd
      · simp only [scanDigits, h, if_true, List.cons_append]
        rw [← hs]
    · exact ⟨[], by simp, by simp [scanDigits, h]⟩

theorem scanDigits_append (M r : List Char) (acc : Nat) (hM : ∀ c ∈ M, isdigit c = true)
    (hr : ∀ c, r.head? = some c → isdigit c = false) :
    scanDigits acc (M ++ r) = (M.foldl (fun n c => n * 10 + (c.toNat - 48)) acc, r) := by
  induction M generalizing acc with
  | nil =>
    cases r with
    | nil => rfl
    | cons c cs => simp [scanDigits, hr c rfl]
  | cons d M ih =>
    have hd : isdigit d = true := hM d (List.mem_cons_self _ _)
    simp only [List.cons_append, scanDigits, hd, if_true, List.foldl_cons]
    exact ih _ (fun c hc => hM c (List.mem_cons_of_mem _ hc))

theorem isspace_of_isdigit (c : Char) (h : isdigit c = true) : isspace c = false := by
  simp only [isdigit, Bool.and_eq_true, decide_eq_true_eq] at h
  simp only [isspace, Bool.or_eq_false_iff, Bool.and_eq_false_iff, decide_eq_false_iff_not]
  omega

theorem not_sign_of_isdigit (c : Char) (h : isdigit c = true) : ¬ (c = '-' ∨ c = '+') := by
  rintro (rfl | rfl) <;> exact absurd h (by decide)

theorem skipSpace_append (ws u : List Char) (h : ∀ c ∈ ws, isspace c = true) :
    skipSpace (ws ++ u) = skipSpace u := by
  induction ws with
  | nil => rfl
  | cons c ws ih =>
    simp only [List.cons_append, skipSpace, h c (List.mem_cons_self _ _), if_true]
    exact ih (fun d hd => h d (List.mem_cons_of_mem _ hd))

theorem isDecimal_iff (M : List Char) :
    isDecimal M = true ↔ M ≠ [] ∧ ∀ c ∈ M, isdigit c = true := by
  cases M <;> simp [isDecimal]

/-- What a `%u` directive has read when it stores a value: white space, an
optional sign and a decimal number, followed by the unread input. -/
theorem scanUnsigned_stored_decompose (s : List Char) (v : Int) (r : List Char)
    (h : scanUnsigned s = Conversion.stored v r) :
    ∃ ws sg M, (∀ c ∈ ws, isspace c = true) ∧ isOptSign sg ∧ isDecimal M = true ∧
      s = ws ++ sg ++ M ++ r := by
  obtain ⟨ws, hws, hs⟩ := skipSpace_decompose s
  unfold scanUnsigned at h
  cases hk : skipSpace s with
  | nil => simp [hk] at h
  | cons c cs =>
    rw [hk] at h hs
    simp only [] at h
    have key : ∀ d ds, isdigit d = true → (scanDigits 0 (d :: ds)).2 = r →
        ∃ M, isDecimal M = true ∧ d :: ds = M ++ r := by
      intro d ds hd hr
      obtain ⟨M, hM, hMs⟩ := scanDigits_decompose (d :: ds) 0
      rw [hr] at hMs
      refine ⟨M, (isDecimal_iff M).mpr ⟨?_, hM⟩, hMs⟩
      rintro rfl
      have : (scanDigits 0 (d :: ds)).2 = d :: ds := by rw [hr]; simpa using hMs.symm
      have h2 := scanDigits_decompose ds (0 * 10 + (d.toNat - 48))
      simp only [scanDigits, hd, if_true] at this
      obtain ⟨M2, -, hM2⟩ := h2
      rw [this] at hM2
      have := congrArg List.length hM2
      simp at this
      omega
    by_cases hsg : c = '-' ∨ c = '+'
    · rw [if_pos hsg] at h
      cases cs with
      | nil => simp at h
      | cons d ds =>
        by_cases hd : isdigit d = true
        · simp only [hd, if_true, Conversion.stored.injEq] at h
          obtain ⟨M, hM, hMs⟩ := key d ds hd h.2
          refine ⟨ws, [c], M, hws, ?_, hM, ?_⟩
          · rcases hsg with rfl | rfl
            · exact Or.inr (Or.inr rfl)
            · exact Or.inr (Or.inl rfl)
          · rw [hs, hMs]; simp
        · simp [hd] at h
    · rw [if_neg hsg] at h
      by_cases hd : isdigit c = true
      · simp only [hd, if_true, Conversion.stored.injEq] at h
        obtain ⟨M, hM, hMs⟩ := key c cs hd h.2
        exact ⟨ws, [], M, hws, Or.inl rfl, hM, by rw [hs, hMs]; simp⟩
      · simp [hd] at h

/-- What a `%u` directive does with white space, an optional sign and a decimal
number: it stores the number (more digits may follow and are read too). -/
theorem scanUnsigned_shape (ws sg M t : List Char) (hws : ∀ c ∈ ws, isspace c = true)
    (hsg : isOptSign sg) (hM : isDecimal M = true) :
    scanUnsigned (ws ++ sg ++ M ++ t) =
      Conversion.stored (storeUnsignedInInt (decide (sg = ['-'])) (scanDigits 0 (M ++ t)).1)
        (scanDigits 0 (M ++ t)).2 := by
  obtain ⟨hne, hdig⟩ := (isDecimal_iff M).mp hM
  cases M with
  | nil => exact absurd rfl hne
  | cons d M =>
    have hd : isdigit d = true := hdig d (List.mem_cons_self _ _)
    unfold scanUnsigned
    rw [List.append_assoc, List.append_assoc, skipSpace_append _ _ hws]
    rcases hsg with rfl | rfl | rfl
    · simp only [List.nil_append, List.cons_append, skipSpace, isspace_of_isdigit d hd,
        if_neg (not_sign_of_isdigit d hd)]
      have h1 : d ≠ '-' := fun h => not_sign_of_isdigit d hd (Or.inl h)
      have h2 : d ≠ '+' := fun h => not_sign_of_isdigit d hd (Or.inr h)
      simp [hd, h1, h2]
    · have h1 : isspace '+' = false := by decide
      simp [skipSpace, h1, hd]
    · have h1 : isspace '-' = false := by decide
      simp [skipSpace, h1, hd]

theorem storeUnsignedInInt_small (n : Nat) (h : n < 2147483648) :
    storeUnsignedInInt false n = (n : Int) := by
  have h1 : n % 4294967296 = n := Nat.mod_eq_of_lt (by omega)
  simp [storeUnsignedInInt, h1, h]

/-- A `%u` directive on a decimal number that is followed by `.` or by the end
of the input stores exactly that number and leaves the rest unread. -/
theorem scanUnsigned_decimal (M t : List Char) (hM : isDecimal M = true)
    (ht : ∀ c, t.head? = some c → isdigit c = false) (hv : decimalValue M < 2147483648) :
    scanUnsigned (M ++ t) = Conversion.stored (decimalValue M : Int) t := by
  have h := scanUnsigned_shape [] [] M t (by simp) (Or.inl rfl) hM
  simp only [List.nil_append] at h
  rw [h, scanDigits_append M t 0 ((isDecimal_iff M).mp hM).2 ht]
  have : decide (([] : List Char) = ['-']) = false := by decide
  rw [this]
  exact congrArg (fun v => Conversion.stored v t) (storeUnsignedInInt_small _ hv)

theorem head_dot (t : List Char) : ∀ c, ('.' :: t).head? = some c → isdigit c = false := by
  intro c hc
  simp at hc
  subst hc
  decide

theorem head_nil : ∀ c, ([] : List Char).head? = some c → isdigit c = false := by
  intro c hc
  simp at hc

theorem sscanf_major_minor (M N : List Char) (a b c : Int)
    (hM : isDecimal M = true) (hN : isDecimal N = true)
    (hMv : decimalValue M < 2147483648) (hNv : decimalValue N < 2147483648) :
    sscanf (M ++ '.' :: N) a b c = ⟨2, (decimalValue M : Int), (decimalValue N : Int), c⟩ := by
  have h1 := scanUnsigned_decimal M ('.' :: N) hM (head_dot N) hMv
  have h2 := scanUnsigned_decimal N [] hN head_nil hNv
  rw [List.append_nil] at h2
  simp [sscanf, h1, h2]

theorem sscanf_major_minor_preview (M N P : List Char) (a b c : Int)
    (hM : isDecimal M = true) (hN : isDecimal N = true) (hP : isDecimal P = true)
    (hMv : decimalValue M < 2147483648) (hNv : decimalValue N < 2147483648)
    (hPv : decimalValue P < 2147483648) :
    sscanf (M ++ '.' :: N ++ '.' :: P) a b c =
      ⟨3, (decimalValue M : Int), (decimalValue N : Int), (decimalValue P : Int)⟩ := by
  have h1 := scanUnsigned_decimal M ('.' :: (N ++ '.' :: P)) hM (head_dot _) hMv
  have h2 := scanUnsigned_decimal N ('.' :: P) hN (head_dot _) hNv
  have h3 := scanUnsigned_decimal P [] hP head_nil hPv
  rw [List.append_nil] at h3
  have e : M ++ '.' :: N ++ '.' :: P = M ++ '.' :: (N ++ '.' :: P) := by simp
  rw [e]
  simp [sscanf, h1, h2, h3]

/-- The call `sscanf(s, "%u.%u.%u", ...)` stores at least two values exactly
when `s` begins with `MAJOR.MINOR`. -/
theorem sscanf_ret_ge_two_iff (s : List Char) (a b c : Int) :
    2 ≤ (sscanf s a b c).ret ↔ beginsWithMajorMinor s := by
  constructor
  · intro h
    unfold sscanf at h
    cases h1 : scanUnsigned s with
    | inputFailure => simp [h1] at h
    | matchingFailure => simp [h1] at h
    | stored v1 r1 =>
      rw [h1] at h
      simp only [] at h
      obtain ⟨ws1, sg1, M, hws1, hsg1, hM, hs⟩ := scanUnsigned_stored_decompose s v1 r1 h1
      split at h
      · rename_i r1a
        cases h2 : scanUnsigned r1a with
        | inputFailure => simp [h2] at h
        | matchingFailure => simp [h2] at h
        | stored v2 r2 =>
          obtain ⟨ws2, sg2, N, hws2, hsg2, hN, hs2⟩ :=
            scanUnsigned_stored_decompose r1a v2 r2 h2
          exact ⟨ws1, sg1, M, ws2, sg2, N, r2, hws1, hsg1, hM, hws2, hsg2, hN, by rw [hs, hs2]⟩
      · simp at h
  · rintro ⟨ws1, sg1, M, ws2, sg2, N, rest, hws1, hsg1, hM, hws2, hsg2, hN, rfl⟩
    have h1 := scanUnsigned_shape ws1 sg1 M ('.' :: (ws2 ++ sg2 ++ N ++ rest)) hws1 hsg1 hM
    rw [scanDigits_append M _ 0 ((isDecimal_iff M).mp hM).2 (head_dot _)] at h1
    have h2 := scanUnsigned_shape ws2 sg2 N rest hws2 hsg2 hN
    unfold sscanf
    rw [h1]
    simp only []
    rw [h2]
    simp only []
    split
    · split <;> simp
    · simp

theorem not_beginsWithMajorMinor_abc : ¬ beginsWithMajorMinor "abc".toList := by
  rw [← sscanf_ret_ge_two_iff "abc".toList 0 0 0]
  decide

/-! ## Facts about `main` -/

/-- The body of `main`, written with the calls it makes. -/
theorem main_eq (env : Env) (argv : List (List Char)) (w : World) :
    main env argv w =
      if argv.length < 3 ∨ argv.length > 4 then
        ⟨Outcome.returned 1, 0, 0, 0,
          w.fprintf ("usage: " ++ String.mk (argv.getD 0 []) ++
            " DATA_FOLDER RECORDING [VERSION]\n")⟩
      else if argv.length = 4 ∧ (mainScan argv).ret < 2 then
        ⟨Outcome.returned 1, (mainScan argv).major, (mainScan argv).minor, (mainScan argv).preview,
          w.fprintf "version must be in the format \x27X.Y\x27, e.g. \x278.55\x27\n"⟩
      else if (mainRendering env w).1 = false then
        ⟨Outcome.returned 1, (mainScan argv).major, (mainScan argv).minor, (mainScan argv).preview,
          (mainRendering env w).2⟩
      else if (mainData env argv w).1 = false then
        ⟨Outcome.returned 1, (mainScan argv).major, (mainScan argv).minor, (mainScan argv).preview,
          (mainData env argv w).2.2⟩
      else if (mainRecording env argv w).1 = false then
        ⟨Outcome.returned 1, (mainScan argv).major, (mainScan argv).minor, (mainScan argv).preview,
          (mainRecording env argv w).2.2⟩
      else if (mainPlayback env argv w).1 = false then
        ⟨Outcome.returned 1, (mainScan argv).major, (mainScan argv).minor, (mainScan argv).preview,
          (mainPlayback env argv w).2⟩
      else
        ⟨Outcome.processingLoop, (mainScan argv).major, (mainScan argv).minor,
          (mainScan argv).preview,
          player_CloseData (mainData env argv w).2.1 (mainPlayback env argv w).2⟩ := rfl

theorem versionRejected_iff (argv : List (List Char)) :
    (argv.length = 4 ∧ (mainScan argv).ret < 2) ↔ versionRejected argv := by
  unfold versionRejected mainScan
  constructor
  · rintro ⟨h1, h2⟩
    rw [if_pos h1] at h2
    exact ⟨h1, h2⟩
  · rintro ⟨h1, h2⟩
    rw [if_pos h1]
    exact ⟨h1, h2⟩

/-- The ways `main` can go, in terms of the calls it makes. -/
theorem main_cases (env : Env) (argv : List (List Char)) (w : World) :
    ((argv.length < 3 ∨ argv.length > 4) ∧ (main env argv w).outcome = Outcome.returned 1 ∧
      (main env argv w).world.trace = w.trace) ∨
    (¬ (argv.length < 3 ∨ argv.length > 4) ∧ versionRejected argv ∧
      (main env argv w).outcome = Outcome.returned 1 ∧
      (main env argv w).world.trace = w.trace) ∨
    (¬ (argv.length < 3 ∨ argv.length > 4) ∧ ¬ versionRejected argv ∧
      (((mainRendering env w).1 = false ∧ (main env argv w).outcome = Outcome.returned 1 ∧
          (main env argv w).world = (mainRendering env w).2) ∨
       ((mainRendering env w).1 = true ∧ (mainData env argv w).1 = false ∧
          (main env argv w).outcome = Outcome.returned 1 ∧
          (main env argv w).world = (mainData env argv w).2.2) ∨
       ((mainRendering env w).1 = true ∧ (mainData env argv w).1 = true ∧
          (mainRecording env argv w).1 = false ∧
          (main env argv w).outcome = Outcome.returned 1 ∧
          (main env argv w).world = (mainRecording env argv w).2.2) ∨
       ((mainRendering env w).1 = true ∧ (mainData env argv w).1 = true ∧
          (mainRecording env argv w).1 = true ∧ (mainPlayback env argv w).1 = false ∧
          (main env argv w).outcome = Outcome.returned 1 ∧
          (main env argv w).world = (mainPlayback env argv w).2) ∨
       ((mainRendering env w).1 = true ∧ (mainData env argv w).1 = true ∧
          (mainRecording env argv w).1 = true ∧ (mainPlayback env argv w).1 = true ∧
          (main env argv w).outcome = Outcome.processingLoop ∧
          (main env argv w).world =
            player_CloseData (mainData env argv w).2.1 (mainPlayback env argv w).2))) := by
  rw [main_eq]
  split_ifs with h1 h2 h3 h4 h5 h6 <;>
    first
    | have h2 := (versionRejected_iff argv).mp h2
    | have h2 := mt (versionRejected_iff argv).mpr h2
    | skip
  · exact Or.inl ⟨h1, rfl, rfl⟩
  · exact Or.inr (Or.inl ⟨h1, h2, rfl, rfl⟩)
  · exact Or.inr (Or.inr ⟨h1, h2, Or.inl ⟨h3, rfl, rfl⟩⟩)
  · simp only [Bool.not_eq_false] at h3
    exact Or.inr (Or.inr ⟨h1, h2, Or.inr (Or.inl ⟨h3, h4, rfl, rfl⟩)⟩)
  · simp only [Bool.not_eq_false] at h3 h4
    exact Or.inr (Or.inr ⟨h1, h2, Or.inr (Or.inr (Or.inl ⟨h3, h4, h5, rfl, rfl⟩))⟩)
  · simp only [Bool.not_eq_false] at h3 h4 h5
    exact Or.inr (Or.inr ⟨h1, h2, Or.inr (Or.inr (Or.inr (Or.inl ⟨h3, h4, h5, h6, rfl, rfl⟩)))⟩)
  · simp only [Bool.not_eq_false] at h3 h4 h5 h6
    exact Or.inr (Or.inr ⟨h1, h2,
      Or.inr (Or.inr (Or.inr (Or.inr ⟨h3, h4, h5, h6, rfl, rfl⟩)))⟩)

theorem main_version_fields (env : Env) (argv : List (List Char)) (w : World)
    (h : ¬ (argv.length < 3 ∨ argv.length > 4)) :
    (main env argv w).major = (mainScan argv).major ∧
    (main env argv w).minor = (mainScan argv).minor ∧
    (main env argv w).preview = (mainScan argv).preview := by
  rw [main_eq, if_neg h]
  split_ifs <;> exact ⟨rfl, rfl, rfl⟩

/-- A successful `player_OpenData` call, in full. -/
theorem player_OpenData_true_eq (env : Env) (D : List Char) (data : player_data) (w : World)
    (h : (player_OpenData env D data w).1 = true) :
    ∃ s1 v1 s2 v2 s3 v3,
      player_OpenData env D data w =
        (true,
          { PictureFile := ⟨w.nextFd, s1, v1⟩, SpriteFile := ⟨w.nextFd + 1, s2, v2⟩,
            TypeFile := ⟨w.nextFd + 2, s3, v3⟩,
            Pictures := ⟨0, v1, (s1 : Int)⟩, Sprites := ⟨0, v2, (s2 : Int)⟩,
            Types := ⟨0, v3, (s3 : Int)⟩ },
          ((w.opened (dataPath env D Tibia_pic) s1 v1).opened (dataPath env D Tibia_spr) s2
            v2).opened (dataPath env D Tibia_dat) s3 v3) := by
  obtain ⟨hc, h1, h2, h3⟩ := (player_OpenData_true_iff env D data w).mp h
  obtain ⟨s1, v1, e1⟩ := (memoryfile_Open_true_iff env _ _ _).mp h1
  rw [memoryfile_Open_some env _ _ _ s1 v1 e1] at h2 h3
  obtain ⟨s2, v2, e2⟩ := (memoryfile_Open_true_iff env _ _ _).mp h2
  rw [memoryfile_Open_some env _ _ _ s2 v2 e2] at h3
  obtain ⟨s3, v3, e3⟩ := (memoryfile_Open_true_iff env _ _ _).mp h3
  exact ⟨s1, v1, s2, v2, s3, v3, player_OpenData_all_open env D data w hc s1 v1 s2 v2 s3 v3 e1 e2 e3⟩

/-- The external calls of `player_OpenData` are `memoryfile_Open` calls only. -/
theorem player_OpenData_trace (env : Env) (D : List Char) (data : player_data) (w : World) :
    ∃ L : List (List Char × Option memory_file),
      (player_OpenData env D data w).2.2.trace = w.trace ++ L.map openEvent := by
  by_cases hc : pathsComposed env D
  · obtain ⟨L, hL, -⟩ := player_OpenData_calls env D data w hc
    exact ⟨L, hL⟩
  · exact ⟨[], by simp [(player_OpenData_not_composed env D data w hc).2.1]⟩

theorem mainRendering_trace (env : Env) (w : World) :
    (mainRendering env w).2.trace =
      w.trace ++ [Event.trc_ChangeErrorReporting,
        Event.rendering_Init 800 600 (mainRendering env w).1] := by
  simp [mainRendering, rendering_Init, trc_ChangeErrorReporting]

theorem mainRendering_mappings (env : Env) (w : World) :
    (mainRendering env w).2.mappings = w.mappings ∧ (mainRendering env w).2.nextFd = w.nextFd := by
  simp [mainRendering, rendering_Init, trc_ChangeErrorReporting]

theorem memoryfile_Open_trace (env : Env) (path : List Char) (file : memory_file) (w : World) :
    ∃ r, (memoryfile_Open env path file w).2.2.trace = w.trace ++ [Event.memoryfile_Open path r] := by
  cases h : env.mapFile w path with
  | none => exact ⟨none, by rw [memoryfile_Open_none env path file w h]; rfl⟩
  | some sv => exact ⟨_, by rw [memoryfile_Open_some env path file w sv.1 sv.2 h]; rfl⟩

theorem playback_Init_world (env : Env) (name : List Char) (recording : trc_data_reader)
    (major minor preview : Int) (pic spr dat : trc_data_reader) (w : World) :
    (playback_Init env name recording major minor preview pic spr dat w).2.mappings = w.mappings ∧
    (playback_Init env name recording major minor preview pic spr dat w).2.trace =
      w.trace ++ [Event.playback_Init w.nextSession name recording major minor preview pic spr dat
        (playback_Init env name recording major minor preview pic spr dat w).1] := by
  simp [playback_Init]

theorem player_CloseData_trace (data : player_data) (w : World) :
    (player_CloseData data w).trace =
      w.trace ++ [Event.memoryfile_Close data.PictureFile, Event.memoryfile_Close data.SpriteFile,
        Event.memoryfile_Close data.TypeFile] := by
  simp [player_CloseData, memoryfile_Close]

/-- Once the version check has passed, `main` calls `trc_ChangeErrorReporting`
and `rendering_Init` first. -/
theorem main_trace_past_version (env : Env) (argv : List (List Char)) (w : World)
    (h1 : ¬ (argv.length < 3 ∨ argv.length > 4)) (h2 : ¬ versionRejected argv) :
    ∃ rest, (main env argv w).world.trace =
      w.trace ++ Event.trc_ChangeErrorReporting ::
        Event.rendering_Init 800 600 (mainRendering env w).1 :: rest := by
  have hR := mainRendering_trace env w
  obtain ⟨L, hD⟩ := player_OpenData_trace env (argv.getD 1 []) default (mainRendering env w).2
  obtain ⟨r, hF⟩ := memoryfile_Open_trace env (argv.getD 2 []) default (mainData env argv w).2.2
  have hP := (playback_Init_world env (argv.getD 2 [])
    { Data := (mainRecording env argv w).2.1.View,
      Length := ((mainRecording env argv w).2.1.Size : Int), Position := 0 }
    (mainScan argv).major (mainScan argv).minor (mainScan argv).preview
    (mainData env argv w).2.1.Pictures (mainData env argv w).2.1.Sprites
    (mainData env argv w).2.1.Types (mainRecording env argv w).2.2).2
  change (mainData env argv w).2.2.trace = _ at hD
  change (mainRecording env argv w).2.2.trace = _ at hF
  change (mainPlayback env argv w).2.trace = _ at hP
  rcases main_cases env argv w with ⟨h, -⟩ | ⟨-, h, -⟩ | ⟨-, -, h⟩
  · exact absurd h h1
  · exact absurd h h2
  · rcases h with ⟨-, -, hw⟩ | ⟨-, -, -, hw⟩ | ⟨-, -, -, -, hw⟩ | ⟨-, -, -, -, -, hw⟩ |
      ⟨-, -, -, -, -, hw⟩
    · exact ⟨[], by rw [hw, hR]⟩
    · exact ⟨_, by rw [hw, hD, hR, List.append_assoc]; rfl⟩
    · exact ⟨_, by rw [hw, hF, hD, hR, List.append_assoc, List.append_assoc]; rfl⟩
    · exact ⟨_, by
        rw [hw, hP, hF, hD, hR, List.append_assoc, List.append_assoc, List.append_assoc]; rfl⟩
    · rw [hw, player_CloseData_trace, hP, hF, hD, hR]
      simp only [List.append_assoc, List.cons_append, List.nil_append]
      exact ⟨_, rfl⟩

theorem versionRejected_iff_not_begins (argv : List (List Char)) (h4 : argv.length = 4) :
    versionRejected argv ↔ ¬ beginsWithMajorMinor (argv.getD 3 []) := by
  rw [← sscanf_ret_ge_two_iff (argv.getD 3 []) 0 0 0]
  unfold versionRejected
  constructor
  · rintro ⟨-, h⟩
    omega
  · intro h
    exact ⟨h4, by omega⟩

theorem erase_three (f1 f2 f3 fr : memory_file) (ms : List memory_file)
    (h12 : f1 ≠ f2) (h13 : f1 ≠ f3) (h23 : f2 ≠ f3) (hr1 : fr ≠ f1) (hr2 : fr ≠ f2)
    (hr3 : fr ≠ f3) :
    (((fr :: f3 :: f2 :: f1 :: ms).erase f1).erase f2).erase f3 = fr :: ms := by
  simp [List.erase_cons, hr1, hr2, hr3, Ne.symm h13, Ne.symm h23, Ne.symm h12]

theorem noClose_append (l1 l2 : List Event) (h1 : ∀ f, Event.memoryfile_Close f ∉ l1)
    (h2 : ∀ f, Event.memoryfile_Close f ∉ l2) : ∀ f, Event.memoryfile_Close f ∉ l1 ++ l2 := by
  intro f hf
  rcases List.mem_append.mp hf with h | h
  · exact h1 f h
  · exact h2 f h

theorem memoryfile_Open_mappings (env : Env) (path : List Char) (file : memory_file)
    (w : World) :
    ((memoryfile_Open env path file w).1 = false →
      (memoryfile_Open env path file w).2.2.mappings = w.mappings) ∧
    ((memoryfile_Open env path file w).1 = true →
      (memoryfile_Open env path file w).2.2.mappings =
        (memoryfile_Open env path file w).2.1 :: w.mappings ∧
      (memoryfile_Open env path file w).2.1.Fd = w.nextFd) := by
  cases h : env.mapFile w path with
  | none => rw [memoryfile_Open_none env path file w h]; simp [World.refused]
  | some sv => rw [memoryfile_Open_some env path file w sv.1 sv.2 h]; simp [World.opened]

theorem mainData_mappings (env : Env) (argv : List (List Char)) (w : World)
    (h : (mainData env argv w).1 = true) :
    (mainData env argv w).2.2.mappings =
      (mainData env argv w).2.1.TypeFile :: (mainData env argv w).2.1.SpriteFile ::
        (mainData env argv w).2.1.PictureFile :: w.mappings ∧
    (mainData env argv w).2.1.PictureFile.Fd = w.nextFd ∧
    (mainData env argv w).2.1.SpriteFile.Fd = w.nextFd + 1 ∧
    (mainData env argv w).2.1.TypeFile.Fd = w.nextFd + 2 ∧
    (mainData env argv w).2.2.nextFd = w.nextFd + 3 := by
  obtain ⟨hRm, hRf⟩ := mainRendering_mappings env w
  unfold mainData at h ⊢
  obtain ⟨s1, v1, s2, v2, s3, v3, e⟩ := player_OpenData_true_eq env _ _ _ h
  rw [e]
  simp [World.opened, hRm, hRf]

/-! ## C6: version arguments that `main` rejects -/

/-- C6, counterexample.  The argument `8.55abc` is not of the form `MAJOR.MINOR`
or `MAJOR.MINOR.PREVIEW`, yet with complete data `main` does not return 1: it
initialises rendering, opens `data/Tibia.pic` and reaches the processing loop.
(`sscanf` has stored two values when it meets the `a`, and the test at line 164
only asks for two.) -/
theorem main_accepts_version_with_trailing_text :
    isVersionForm "8.55abc".toList = false ∧
    (main envComplete
      ["infodump".toList, "data".toList, "rec.trc".toList, "8.55abc".toList]
      World.initial).outcome = Outcome.processingLoop ∧
    Event.rendering_Init 800 600 true ∈
      (main envComplete
        ["infodump".toList, "data".toList, "rec.trc".toList, "8.55abc".toList]
        World.initial).world.trace ∧
    Event.memoryfile_Open "data/Tibia.pic".toList (some ⟨3, 100, 4096⟩) ∈
      (main envComplete
        ["infodump".toList, "data".toList, "rec.trc".toList, "8.55abc".toList]
        World.initial).world.trace := by
  decide

/-- C6, amended.  With a fourth argument that does not begin with `MAJOR.MINOR`
(a decimal number, a `.`, a second decimal number, each number optionally
preceded by white space and one sign), `main` returns 1 without having made any
external call: rendering is not initialised and no `memoryfile_Open` call is
made.  A fourth argument that does begin so passes the check, whatever follows:
`main` goes on to `trc_ChangeErrorReporting` and `rendering_Init`.  The string
`abc` does not begin with `MAJOR.MINOR`. -/
theorem main_rejects_version_without_major_minor (env : Env) (argv : List (List Char))
    (w : World) (h4 : argv.length = 4) :
    (¬ beginsWithMajorMinor (argv.getD 3 []) →
      (main env argv w).outcome = Outcome.returned 1 ∧
      callTrace w (main env argv w).world = [] ∧
      (∀ width height r, Event.rendering_Init width height r ∉ callTrace w (main env argv w).world) ∧
      (∀ path r, Event.memoryfile_Open path r ∉ callTrace w (main env argv w).world)) ∧
    (beginsWithMajorMinor (argv.getD 3 []) →
      ∃ r rest, callTrace w (main env argv w).world =
        Event.trc_ChangeErrorReporting :: Event.rendering_Init 800 600 r :: rest) ∧
    ¬ beginsWithMajorMinor "abc".toList := by
  have hargc : ¬ (argv.length < 3 ∨ argv.length > 4) := by omega
  refine ⟨?_, ?_, not_beginsWithMajorMinor_abc⟩
  · intro hbad
    have hrej := (versionRejected_iff_not_begins argv h4).mpr hbad
    rcases main_cases env argv w with ⟨h, -⟩ | ⟨-, -, ho, ht⟩ | ⟨-, h, -⟩
    · exact absurd h hargc
    · have hc : callTrace w (main env argv w).world = [] :=
        callTrace_append w _ [] (by simpa using ht)
      rw [hc]
      exact ⟨ho, rfl, by simp, by simp⟩
    · exact absurd hrej h
  · intro hgood
    have hacc : ¬ versionRejected argv := fun h =>
      (versionRejected_iff_not_begins argv h4).mp h hgood
    obtain ⟨rest, ht⟩ := main_trace_past_version env argv w hargc hacc
    exact ⟨_, rest, callTrace_append w _ _ ht⟩

/-- C6, amended, at the concrete input `abc`. -/
theorem main_rejects_version_without_major_minor_witness :
    (main envComplete ["infodump".toList, "data".toList, "rec.trc".toList, "abc".toList]
      World.initial).outcome = Outcome.returned 1 ∧
    callTrace World.initial
      (main envComplete ["infodump".toList, "data".toList, "rec.trc".toList, "abc".toList]
        World.initial).world = [] ∧
    (∀ width height r, Event.rendering_Init width height r ∉ callTrace World.initial
      (main envComplete ["infodump".toList, "data".toList, "rec.trc".toList, "abc".toList]
        World.initial).world) ∧
    (∀ path r, Event.memoryfile_Open path r ∉ callTrace World.initial
      (main envComplete ["infodump".toList, "data".toList, "rec.trc".toList, "abc".toList]
        World.initial).world) :=
  (main_rejects_version_without_major_minor envComplete
    ["infodump".toList, "data".toList, "rec.trc".toList, "abc".toList] World.initial rfl).1
    not_beginsWithMajorMinor_abc

/-! ## C7: version arguments that `main` accepts -/

/-- C7.  For decimal numbers `M`, `N` (and `P`) below `2^31`: `sscanf` on `M.N`
stores two values, `M` and `N`, and leaves the third variable alone; on `M.N.P`
it stores all three.  In `main` such a fourth argument passes the version check
(line 171 is reached) with `major = M`, `minor = N`, and `preview = P` when the
third component is present and 0 when it is absent.  With three arguments (no
version) all three variables are 0. -/
theorem main_version_parse (M N : List Char) (hM : isDecimal M = true) (hN : isDecimal N = true)
    (hMv : decimalValue M < 2147483648) (hNv : decimalValue N < 2147483648) :
    (∀ a b c, sscanf (M ++ '.' :: N) a b c =
      ⟨2, (decimalValue M : Int), (decimalValue N : Int), c⟩) ∧
    (∀ env prog folder recording w,
      ¬ versionRejected [prog, folder, recording, M ++ '.' :: N] ∧
      Event.trc_ChangeErrorReporting ∈
        callTrace w (main env [prog, folder, recording, M ++ '.' :: N] w).world ∧
      (main env [prog, folder, recording, M ++ '.' :: N] w).major = (decimalValue M : Int) ∧
      (main env [prog, folder, recording, M ++ '.' :: N] w).minor = (decimalValue N : Int) ∧
      (main env [prog, folder, recording, M ++ '.' :: N] w).preview = 0) ∧
    (∀ P, isDecimal P = true → decimalValue P < 2147483648 →
      (∀ a b c, sscanf (M ++ '.' :: N ++ '.' :: P) a b c =
        ⟨3, (decimalValue M : Int), (decimalValue N : Int), (decimalValue P : Int)⟩) ∧
      (∀ env prog folder recording w,
        ¬ versionRejected [prog, folder, recording, M ++ '.' :: N ++ '.' :: P] ∧
        Event.trc_ChangeErrorReporting ∈
          callTrace w (main env [prog, folder, recording, M ++ '.' :: N ++ '.' :: P] w).world ∧
        (main env [prog, folder, recording, M ++ '.' :: N ++ '.' :: P] w).major =
          (decimalValue M : Int) ∧
        (main env [prog, folder, recording, M ++ '.' :: N ++ '.' :: P] w).minor =
          (decimalValue N : Int) ∧
        (main env [prog, folder, recording, M ++ '.' :: N ++ '.' :: P] w).preview =
          (decimalValue P : Int))) ∧
    (∀ env prog folder recording w,
      (main env [prog, folder, recording] w).major = 0 ∧
      (main env [prog, folder, recording] w).minor = 0 ∧
      (main env [prog, folder, recording] w).preview = 0) := by
  have key : ∀ (v : List Char) (k M1 N1 P1 : Int), 2 ≤ k →
      sscanf v 0 0 0 = ⟨k, M1, N1, P1⟩ →
      ∀ env prog folder recording w,
        ¬ versionRejected [prog, folder, recording, v] ∧
        Event.trc_ChangeErrorReporting ∈
          callTrace w (main env [prog, folder, recording, v] w).world ∧
        (main env [prog, folder, recording, v] w).major = M1 ∧
        (main env [prog, folder, recording, v] w).minor = N1 ∧
        (main env [prog, folder, recording, v] w).preview = P1 := by
    intro v k M1 N1 P1 hk hs env prog folder recording w
    have hargc : ¬ (([prog, folder, recording, v] : List (List Char)).length < 3 ∨
        ([prog, folder, recording, v] : List (List Char)).length > 4) := by simp
    have hacc : ¬ versionRejected [prog, folder, recording, v] := by
      rintro ⟨-, h⟩
      have : (sscanf v 0 0 0).ret = k := by rw [hs]
      simp only [List.getD_cons_succ, List.getD_cons_zero] at h
      omega
    obtain ⟨rest, ht⟩ := main_trace_past_version env _ w hargc hacc
    obtain ⟨f1, f2, f3⟩ := main_version_fields env _ w hargc
    have hscan : mainScan [prog, folder, recording, v] = ⟨k, M1, N1, P1⟩ := by
      simp [mainScan, hs]
    refine ⟨hacc, ?_, by rw [f1, hscan], by rw [f2, hscan], by rw [f3, hscan]⟩
    rw [callTrace_append w _ _ ht]
    simp
  refine ⟨fun a b c => sscanf_major_minor M N a b c hM hN hMv hNv, ?_, ?_, ?_⟩
  · exact key _ 2 _ _ 0 (le_refl _) (sscanf_major_minor M N 0 0 0 hM hN hMv hNv)
  · intro P hP hPv
    exact ⟨fun a b c => sscanf_major_minor_preview M N P a b c hM hN hP hMv hNv hPv,
      key _ 3 _ _ _ (by norm_num) (sscanf_major_minor_preview M N P 0 0 0 hM hN hP hMv hNv hPv)⟩
  · intro env prog folder recording w
    have hargc : ¬ (([prog, folder, recording] : List (List Char)).length < 3 ∨
        ([prog, folder, recording] : List (List Char)).length > 4) := by simp
    obtain ⟨f1, f2, f3⟩ := main_version_fields env _ w hargc
    rw [f1, f2, f3]
    simp [mainScan]

/-- C7 at the concrete input `8.55`: major 8, minor 55, preview 0. -/
theorem main_version_parse_witness :
    (main envComplete ["infodump".toList, "data".toList, "rec.trc".toList, "8.55".toList]
      World.initial).major = 8 ∧
    (main envComplete ["infodump".toList, "data".toList, "rec.trc".toList, "8.55".toList]
      World.initial).minor = 55 ∧
    (main envComplete ["infodump".toList, "data".toList, "rec.trc".toList, "8.55".toList]
      World.initial).preview = 0 :=
  ((main_version_parse "8".toList "55".toList (by decide) (by decide) (by decide)
    (by decide)).2.1 envComplete "infodump".toList "data".toList "rec.trc".toList
    World.initial).2.2

/-! ## C8: when `main` closes the resource mappings -/

/-- C8, counterexample.  With all three tables present and the recording
missing, `player_OpenData` succeeds, the recording open fails, and `main`
returns 1 with the three resource mappings (descriptors 3, 4, 5) still open and
without any `memoryfile_Close` call. -/
theorem main_recording_failure_leaves_data_open :
    (mainData envNoRecording ["infodump".toList, "data".toList, "rec.trc".toList]
      World.initial).1 = true ∧
    (mainRecording envNoRecording ["infodump".toList, "data".toList, "rec.trc".toList]
      World.initial).1 = false ∧
    (main envNoRecording ["infodump".toList, "data".toList, "rec.trc".toList]
      World.initial).outcome = Outcome.returned 1 ∧
    (main envNoRecording ["infodump".toList, "data".toList, "rec.trc".toList]
      World.initial).world.mappings = [⟨5, 50, 12288⟩, ⟨4, 200, 8192⟩, ⟨3, 100, 4096⟩] ∧
    (∀ e ∈ (main envNoRecording ["infodump".toList, "data".toList, "rec.trc".toList]
      World.initial).world.trace, ∀ f, e ≠ Event.memoryfile_Close f) := by
  refine ⟨by decide, by decide, by decide, by decide, ?_⟩
  have ht : (main envNoRecording ["infodump".toList, "data".toList, "rec.trc".toList]
      World.initial).world.trace =
      [Event.trc_ChangeErrorReporting, Event.rendering_Init 800 600 true,
       Event.memoryfile_Open "data/Tibia.pic".toList (some ⟨3, 100, 4096⟩),
       Event.memoryfile_Open "data/Tibia.spr".toList (some ⟨4, 200, 8192⟩),
       Event.memoryfile_Open "data/Tibia.dat".toList (some ⟨5, 50, 12288⟩),
       Event.memoryfile_Open "rec.trc".toList none] := by decide
  rw [ht]
  intro e he f
  simp only [List.mem_cons, List.mem_singleton, List.not_mem_nil, or_false] at he
  rcases he with rfl | rfl | rfl | rfl | rfl | rfl <;> simp

/-- C8, amended.  When `main` reaches the processing loop, `player_OpenData` has
succeeded and the three resource mappings have been closed by
`player_CloseData` right after the successful `playback_Init` call and before
the loop: the last four external calls are `playback_Init` (result true) and
`memoryfile_Close` on `PictureFile`, `SpriteFile`, `TypeFile`, no
`memoryfile_Close` call comes earlier, and the only mapping opened by `main`
that is still open is the recording.  On the two later failure paths
(`player_OpenData` succeeded, then the recording open or `playback_Init`
failed) `main` returns 1 without any `memoryfile_Close` call, the three
resource mappings still open. -/
theorem main_closes_data_before_loop (env : Env) (argv : List (List Char)) (w : World) :
    ((main env argv w).outcome = Outcome.processingLoop →
      (mainData env argv w).1 = true ∧
      (∃ pre r,
        callTrace w (main env argv w).world =
          pre ++ [Event.playback_Init (mainRecording env argv w).2.2.nextSession (argv.getD 2 [])
                    { Data := (mainRecording env argv w).2.1.View,
                      Length := ((mainRecording env argv w).2.1.Size : Int), Position := 0 }
                    (mainScan argv).major (mainScan argv).minor (mainScan argv).preview
                    (mainData env argv w).2.1.Pictures (mainData env argv w).2.1.Sprites
                    (mainData env argv w).2.1.Types r,
                  Event.memoryfile_Close (mainData env argv w).2.1.PictureFile,
                  Event.memoryfile_Close (mainData env argv w).2.1.SpriteFile,
                  Event.memoryfile_Close (mainData env argv w).2.1.TypeFile] ∧
        r = true ∧ ∀ f, Event.memoryfile_Close f ∉ pre) ∧
      (main env argv w).world.mappings = (mainRecording env argv w).2.1 :: w.mappings) ∧
    (¬ (argv.length < 3 ∨ argv.length > 4) → ¬ versionRejected argv →
      (mainRendering env w).1 = true → (mainData env argv w).1 = true →
      (main env argv w).outcome = Outcome.returned 1 →
      ((mainRecording env argv w).1 = false ∨ (mainPlayback env argv w).1 = false) ∧
      (∀ f, Event.memoryfile_Close f ∉ callTrace w (main env argv w).world) ∧
      (mainData env argv w).2.1.PictureFile ∈ (main env argv w).world.mappings ∧
      (mainData env argv w).2.1.SpriteFile ∈ (main env argv w).world.mappings ∧
      (mainData env argv w).2.1.TypeFile ∈ (main env argv w).world.mappings) := by
  have hR := mainRendering_trace env w
  obtain ⟨hRm, hRf⟩ := mainRendering_mappings env w
  obtain ⟨L, hD⟩ := player_OpenData_trace env (argv.getD 1 []) default (mainRendering env w).2
  obtain ⟨rr, hF⟩ := memoryfile_Open_trace env (argv.getD 2 []) default (mainData env argv w).2.2
  obtain ⟨hPm, hP⟩ := playback_Init_world env (argv.getD 2 [])
    { Data := (mainRecording env argv w).2.1.View,
      Length := ((mainRecording env argv w).2.1.Size : Int), Position := 0 }
    (mainScan argv).major (mainScan argv).minor (mainScan argv).preview
    (mainData env argv w).2.1.Pictures (mainData env argv w).2.1.Sprites
    (mainData env argv w).2.1.Types (mainRecording env argv w).2.2
  change (mainData env argv w).2.2.trace = _ at hD
  change (mainRecording env argv w).2.2.trace = _ at hF
  change (mainPlayback env argv w).2.trace = _ at hP
  change (mainPlayback env argv w).2.mappings = _ at hPm
  have hopen : ∀ c ∈ L.map openEvent, ∀ f, c ≠ Event.memoryfile_Close f := by
    intro c hc f
    obtain ⟨x, -, rfl⟩ := List.mem_map.mp hc
    simp [openEvent]
  have hopen2 : ∀ f, Event.memoryfile_Close f ∉ L.map openEvent :=
    fun f hf => hopen _ hf f rfl
  constructor
  · intro ho
    rcases main_cases env argv w with ⟨-, ho1, -⟩ | ⟨-, -, ho1, -⟩ | ⟨-, -, h⟩
    · rw [ho1] at ho; exact absurd ho (by decide)
    · rw [ho1] at ho; exact absurd ho (by decide)
    · rcases h with ⟨-, ho1, -⟩ | ⟨-, -, ho1, -⟩ | ⟨-, -, -, ho1, -⟩ | ⟨-, -, -, -, ho1, -⟩ |
        ⟨-, h4, h5, h6, -, hw⟩
      · rw [ho1] at ho; exact absurd ho (by decide)
      · rw [ho1] at ho; exact absurd ho (by decide)
      · rw [ho1] at ho; exact absurd ho (by decide)
      · rw [ho1] at ho; exact absurd ho (by decide)
      · obtain ⟨hDm, hf1, hf2, hf3, hDn⟩ := mainData_mappings env argv w h4
        obtain ⟨hFm, hFd⟩ := (memoryfile_Open_mappings env (argv.getD 2 []) default
          (mainData env argv w).2.2).2 h5
        change (mainRecording env argv w).2.2.mappings =
          (mainRecording env argv w).2.1 :: _ at hFm
        change (mainRecording env argv w).2.1.Fd = _ at hFd
        refine ⟨h4, ⟨[Event.trc_ChangeErrorReporting,
            Event.rendering_Init 800 600 (mainRendering env w).1] ++ L.map openEvent ++
            [Event.memoryfile_Open (argv.getD 2 []) rr], (mainPlayback env argv w).1, ?_, h6, ?_⟩, ?_⟩
        · apply callTrace_append
          rw [hw, player_CloseData_trace, hP, hF, hD, hR]
          simp only [List.append_assoc, List.cons_append, List.nil_append]
          rfl
        · exact noClose_append _ _ (noClose_append _ _ (by simp) hopen2) (by simp)
        · rw [hw]
          simp only [player_CloseData, memoryfile_Close]
          rw [hPm, hFm, hDm]
          apply erase_three
          · intro e; have := congrArg memory_file.Fd e; omega
          · intro e; have := congrArg memory_file.Fd e; omega
          · intro e; have := congrArg memory_file.Fd e; omega
          · intro e; have := congrArg memory_file.Fd e; omega
          · intro e; have := congrArg memory_file.Fd e; omega
          · intro e; have := congrArg memory_file.Fd e; omega
  · intro h1 h2 h3 h4 ho
    obtain ⟨hDm, -⟩ := mainData_mappings env argv w h4
    rcases main_cases env argv w with ⟨h, -⟩ | ⟨-, h, -⟩ | ⟨-, -, h⟩
    · exact absurd h h1
    · exact absurd h h2
    · rcases h with ⟨h3a, -⟩ | ⟨-, h4a, -⟩ | ⟨-, -, h5, -, hw⟩ | ⟨-, -, h5, h6, -, hw⟩ |
        ⟨-, -, -, -, ho1, -⟩
      · rw [h3] at h3a; exact absurd h3a (by decide)
      · rw [h4] at h4a; exact absurd h4a (by decide)
      · have hFm := (memoryfile_Open_mappings env (argv.getD 2 []) default
          (mainData env argv w).2.2).1 h5
        change (mainRecording env argv w).2.2.mappings = _ at hFm
        refine ⟨Or.inl h5, ?_, ?_⟩
        · rw [callTrace_append w _ ([Event.trc_ChangeErrorReporting,
            Event.rendering_Init 800 600 (mainRendering env w).1] ++ L.map openEvent ++
            [Event.memoryfile_Open (argv.getD 2 []) rr])
            (by rw [hw, hF, hD, hR]; simp only [List.append_assoc])]
          exact noClose_append _ _ (noClose_append _ _ (by simp) hopen2) (by simp)
        · rw [hw, hFm, hDm]
          simp
      · obtain ⟨hFm, -⟩ := (memoryfile_Open_mappings env (argv.getD 2 []) default
          (mainData env argv w).2.2).2 h5
        change (mainRecording env argv w).2.2.mappings = _ at hFm
        refine ⟨Or.inr h6, ?_, ?_⟩
        · obtain ⟨ev, hev, hP2⟩ : ∃ ev, (∀ f, Event.memoryfile_Close f ∉ [ev]) ∧
              (mainPlayback env argv w).2.trace = (mainRecording env argv w).2.2.trace ++ [ev] :=
            ⟨_, by simp, hP⟩
          rw [callTrace_append w _ ([Event.trc_ChangeErrorReporting,
            Event.rendering_Init 800 600 (mainRendering env w).1] ++ L.map openEvent ++
            ([Event.memoryfile_Open (argv.getD 2 []) rr] ++ [ev]))
            (by rw [hw, hP2, hF, hD, hR]; simp only [List.append_assoc])]
          exact noClose_append _ _ (noClose_append _ _ (by simp) hopen2)
            (noClose_append _ _ (by simp) hev)
        · rw [hw, hPm, hFm, hDm]
          simp
      · rw [ho1] at ho; exact absurd ho (by decide)

/-- C8, amended, at a concrete input: a complete run; only the recording
(descriptor 6) is still mapped when the loop starts. -/
theorem main_closes_data_before_loop_witness :
    (main envComplete ["infodump".toList, "data".toList, "rec.trc".toList, "8.55".toList]
      World.initial).outcome = Outcome.processingLoop ∧
    (main envComplete ["infodump".toList, "data".toList, "rec.trc".toList, "8.55".toList]
      World.initial).world.mappings = [⟨6, 7, 16384⟩] :=
  ⟨by decide, ((main_closes_data_before_loop envComplete
    ["infodump".toList, "data".toList, "rec.trc".toList, "8.55".toList] World.initial).1
    (by decide)).2.2⟩

/-! ## C9: the exit status of `main` -/

/-- C9.  `main` returns 1 exactly when the argument count is not 3 or 4, or the
version check fails, or `rendering_Init`, `player_OpenData`, the recording open
or `playback_Init` fails (each call taken in the state the previous calls
left).  In every other case it enters the processing loop; it never returns 0.
A run with complete data, a recording and version `8.55` enters the loop. -/
theorem main_exit_status (env : Env) (argv : List (List Char)) (w : World) :
    ((main env argv w).outcome = Outcome.returned 1 ↔
      (argv.length < 3 ∨ argv.length > 4) ∨ versionRejected argv ∨
      (mainRendering env w).1 = false ∨ (mainData env argv w).1 = false ∨
      (mainRecording env argv w).1 = false ∨ (mainPlayback env argv w).1 = false) ∧
    ((main env argv w).outcome = Outcome.returned 1 ∨
      (main env argv w).outcome = Outcome.processingLoop) ∧
    (main env argv w).outcome ≠ Outcome.returned 0 ∧
    (main envComplete ["infodump".toList, "data".toList, "rec.trc".toList, "8.55".toList]
      World.initial).outcome = Outcome.processingLoop := by
  refine ⟨?_, ?_, ?_, by decide⟩
  · rcases main_cases env argv w with ⟨h1, ho, -⟩ | ⟨h1, h2, ho, -⟩ | ⟨h1, h2, h⟩
    · simp [ho, h1]
    · simp [ho, h2]
    · rcases h with ⟨h3, ho, -⟩ | ⟨h3, h4, ho, -⟩ | ⟨h3, h4, h5, ho, -⟩ |
        ⟨h3, h4, h5, h6, ho, -⟩ | ⟨h3, h4, h5, h6, ho, -⟩
      · simp [ho, h3]
      · simp [ho, h4]
      · simp [ho, h5]
      · simp [ho, h6]
      · simp [ho, h1, h2, h3, h4, h5, h6]
  · rcases main_cases env argv w with ⟨-, ho, -⟩ | ⟨-, -, ho, -⟩ | ⟨-, -, h⟩
    · exact Or.inl ho
    · exact Or.inl ho
    · rcases h with ⟨-, ho, -⟩ | ⟨-, -, ho, -⟩ | ⟨-, -, -, ho, -⟩ |
        ⟨-, -, -, -, ho, -⟩ | ⟨-, -, -, -, ho, -⟩
      · exact Or.inl ho
      · exact Or.inl ho
      · exact Or.inl ho
      · exact Or.inl ho
      · exact Or.inr ho
  · rcases main_cases env argv w with ⟨-, ho, -⟩ | ⟨-, -, ho, -⟩ | ⟨-, -, h⟩
    · rw [ho]; decide
    · rw [ho]; decide
    · rcases h with ⟨-, ho, -⟩ | ⟨-, -, ho, -⟩ | ⟨-, -, -, ho, -⟩ |
        ⟨-, -, -, -, ho, -⟩ | ⟨-, -, -, -, ho, -⟩ <;> rw [ho] <;> decide

end Tibiarc
